import Mathlib

/-!
# Verification of the consent-companion change-detection engine

This file is a shallow embedding, in Lean 4, of the change-detection and
risk-classification engine of the `consent-companion` repository
(`backend/consent_core.py` and the engine-facing parts of
`backend/api_main.py`), together with theorems settling the frozen claims
about it.

Modelling conventions:

* Python `str` is modelled by `String`; character-level work happens on
  `String.data : List Char`.  All texts in scope are ASCII (plus the few
  unicode quote characters the code itself names), so the ASCII-only
  behaviour of `Char.isAlpha`, `Char.isDigit`, `Char.toLower`, … agrees
  with Python's `str` methods on the inputs considered.
* Python `float` risk scores and similarity values are modelled by `ℚ`.
  Every concrete score in the engine is a small decimal; the claims never
  depend on binary rounding of such values.
* The sentence-transformer model (an external library, not part of this
  repository) is abstracted: `align_sentences_semantic` and
  `analyze_policy_change_semantic` take the cosine-similarity matrix
  `sim : Nat → Nat → ℚ` as a parameter in place of `model`.
* `split_into_sentences` is modelled by its line-based branch (the spaCy
  branch delegates to an external statistical library; the line-based
  fallback is the code's own splitting logic).
* Python regular expressions are compiled by hand into deterministic
  character scanners; each scanner is annotated with the regex it
  implements.  Scanners that advance by more than one character per step
  use a fuel argument initialised to the input length; every step consumes
  at least one character, so the fuel is never exhausted.
* Python's stable `list.sort(key=k, reverse=True)` is modelled by sorting
  index-decorated elements by the strict lexicographic order
  (key descending, original index ascending), which is the standard
  characterisation of a stable descending sort.
-/

set_option maxRecDepth 1000000

namespace ConsentCore

/-- Python `\s` / `str.strip()` whitespace characters (ASCII range). -/
def isWs (c : Char) : Bool :=
  c = ' ' || c = '\t' || c = '\n' || c = '\r' || c = '\x0b' || c = '\x0c'

/-- Python `\w` word character (ASCII range), used for `\b` boundaries. -/
def isWordChar (c : Char) : Bool := c.isAlphanum || c = '_'

/-- ASCII lower-casing of a single character (Python `str.lower`). -/
def lowerChar (c : Char) : Char := if c.isUpper then Char.ofNat (c.toNat + 32) else c

/-- Python `str.lower()`. -/
def lowerStr (s : String) : String := ⟨s.data.map lowerChar⟩

/-- Drop leading and trailing whitespace from a character list. -/
def stripChars (cs : List Char) : List Char :=
  ((cs.dropWhile isWs).reverse.dropWhile isWs).reverse

/-- Python `str.strip()`. -/
def stripStr (s : String) : String := ⟨stripChars s.data⟩

/-- Python substring test `needle in hay` on character lists. -/
def containsSub : List Char → List Char → Bool
  | needle, [] => needle.isEmpty
  | needle, c :: cs => needle.isPrefixOf (c :: cs) || containsSub needle cs

/-- Python substring test `needle in hay` on strings. -/
def strContains (needle hay : String) : Bool := containsSub needle.data hay.data

/-- `_contains_any(text, keywords)`: `any(kw in text for kw in keywords)`. -/
def containsAnyKw (text : String) (keywords : List String) : Bool :=
  keywords.any (fun kw => strContains kw text)

/-- Collapse every whitespace run to a single space (`re.sub(r"\s+", " ", t)`).
The flag records whether the previous character was whitespace. -/
def collapseWsAux : Bool → List Char → List Char
  | _, [] => []
  | prevWs, c :: cs =>
    if isWs c then
      if prevWs then collapseWsAux true cs else ' ' :: collapseWsAux true cs
    else c :: collapseWsAux false cs

def collapseWs (cs : List Char) : List Char := collapseWsAux false cs

/-- Python `str.split()` (split on whitespace runs, dropping empty pieces).
`acc` holds the characters of the current word, reversed. -/
def splitWsAux (acc : List Char) : List Char → List String
  | [] => if acc.isEmpty then [] else [⟨acc.reverse⟩]
  | c :: cs =>
    if isWs c then
      if acc.isEmpty then splitWsAux [] cs
      else (⟨acc.reverse⟩ : String) :: splitWsAux [] cs
    else splitWsAux (c :: acc) cs

def splitWs (s : String) : List String := splitWsAux [] s.data

/-- Maximal runs of ASCII letters: `re.findall(r"[A-Za-z]+", s)`. -/
def alphaRunsAux (acc : List Char) : List Char → List String
  | [] => if acc.isEmpty then [] else [⟨acc.reverse⟩]
  | c :: cs =>
    if c.isAlpha then alphaRunsAux (c :: acc) cs
    else if acc.isEmpty then alphaRunsAux [] cs
    else (⟨acc.reverse⟩ : String) :: alphaRunsAux [] cs

def alphaRuns (s : String) : List String := alphaRunsAux [] s.data

/-- Maximal runs of ASCII digits: `re.findall(r"\d+", s)`. -/
def digitRunsAux (acc : List Char) : List Char → List String
  | [] => if acc.isEmpty then [] else [⟨acc.reverse⟩]
  | c :: cs =>
    if c.isDigit then digitRunsAux (c :: acc) cs
    else if acc.isEmpty then digitRunsAux [] cs
    else (⟨acc.reverse⟩ : String) :: digitRunsAux [] cs

/-- `re.findall(r"\d+", s)`. -/
def digitRuns (s : String) : List String := digitRunsAux [] s.data

/-- Python `str.splitlines()` on characters: split at `\n`, `\r\n` or `\r`,
with no empty trailing line for a trailing newline.  `acc` holds the current
line reversed. -/
def splitlinesAux (acc : List Char) : List Char → List (List Char)
  | [] => [acc.reverse]
  | '\r' :: '\n' :: rest =>
    acc.reverse :: (if rest.isEmpty then [] else splitlinesAux [] rest)
  | '\n' :: rest =>
    acc.reverse :: (if rest.isEmpty then [] else splitlinesAux [] rest)
  | '\r' :: rest =>
    acc.reverse :: (if rest.isEmpty then [] else splitlinesAux [] rest)
  | c :: rest => splitlinesAux (c :: acc) rest

/-- Python `str.splitlines()`. -/
def splitlinesPy (s : String) : List String :=
  if s.data.isEmpty then [] else (splitlinesAux [] s.data).map (fun l => ⟨l⟩)

/-- `clean_line`: remove BOM characters and surrounding whitespace. -/
def clean_line (s : String) : String :=
  stripStr ⟨s.data.filter (fun c => c ≠ '\uFEFF')⟩

/-- Characters removed by `_normalize_trivial` (`re.sub(r"[\"'`’“”]", "", t)`). -/
def trivialQuoteChars : List Char := ['"', '\'', '`', '’', '“', '”']

/-- Characters blanked by `_normalize_trivial` (`re.sub(r"[.,;:!?()\-\[\]]", " ", t)`). -/
def trivialPunctChars : List Char := ['.', ',', ';', ':', '!', '?', '(', ')', '-', '[', ']']

/-- `_normalize_trivial`: lower-case, drop quotes, blank punctuation,
collapse whitespace, strip. -/
def normalize_trivial (text : String) : String :=
  let t := (lowerStr text).data
  let t := t.filter (fun c => ¬ trivialQuoteChars.contains c)
  let t := t.map (fun c => if trivialPunctChars.contains c then ' ' else c)
  ⟨stripChars (collapseWs t)⟩

/-- `_is_trivial_change(old, new, similarity)`. -/
def is_trivial_change (old new : String) (similarity : ℚ) : Bool :=
  if old.data.isEmpty || new.data.isEmpty then false
  else if (98 : ℚ)/100 ≤ similarity then true
  else if normalize_trivial old = normalize_trivial new then true
  else false

end ConsentCore

namespace ConsentCore

/-! ### `_strip_html` / `_strip_markdown` / `_cleanup_for_semantic` -/

/-- Try the regex `(?i)<br\s*/?>` at the head of the input; on success return
the remaining characters. -/
def matchBr : List Char → Option (List Char)
  | '<' :: c1 :: c2 :: rest =>
    if lowerChar c1 = 'b' ∧ lowerChar c2 = 'r' then
      match rest.dropWhile isWs with
      | '/' :: '>' :: r => some r
      | '>' :: r => some r
      | _ => none
    else none
  | _ => none

/-- `re.sub(r"(?i)<br\s*/?>", "\n", text)`: scan left to right, replacing each
match with a newline.  Fuel starts at the input length. -/
def stripBrF : Nat → List Char → List Char
  | 0, s => s
  | _ + 1, [] => []
  | n + 1, c :: cs =>
    match matchBr (c :: cs) with
    | some r => '\n' :: stripBrF n r
    | none => c :: stripBrF n cs

/-- Try the regex `<[^>]+>` at the head of the input (after an initial `<`
and at least one non-`>` character, consume up to the first `>`). -/
def tagEnd : List Char → Option (List Char)
  | [] => none
  | '>' :: r => some r
  | _ :: cs => tagEnd cs

def matchTag : List Char → Option (List Char)
  | '<' :: c :: cs => if c = '>' then none else tagEnd cs
  | _ => none

/-- `_HTML_TAG_RE.sub(" ", t)` where `_HTML_TAG_RE = re.compile(r"<[^>]+>")`. -/
def stripTagsF : Nat → List Char → List Char
  | 0, s => s
  | _ + 1, [] => []
  | n + 1, c :: cs =>
    match matchTag (c :: cs) with
    | some r => ' ' :: stripTagsF n r
    | none => c :: stripTagsF n cs

/-- `_strip_html`. -/
def strip_html (text : String) : String :=
  let t := stripBrF text.data.length text.data
  ⟨stripTagsF t.length t⟩

/-- Consume characters up to (and including) the first occurrence of `stop`,
returning the consumed content (without `stop`) and the rest. -/
def upToChar (stop : Char) : List Char → Option (List Char × List Char)
  | [] => none
  | c :: cs =>
    if c = stop then some ([], cs)
    else
      match upToChar stop cs with
      | some (content, rest) => some (c :: content, rest)
      | none => none

/-- Try the regex `\[([^\]]+)\]\([^)]+\)` at the head of the input; on
success return the bracketed text (the `\1` replacement) and the rest. -/
def matchMdLink : List Char → Option (List Char × List Char)
  | '[' :: cs =>
    match upToChar ']' cs with
    | some (inner, rest1) =>
      if inner.isEmpty then none
      else
        match rest1 with
        | '(' :: rest2 =>
          match upToChar ')' rest2 with
          | some (url, rest3) => if url.isEmpty then none else some (inner, rest3)
          | none => none
        | _ => none
    | none => none
  | _ => none

/-- `_MD_LINK_RE.sub(r"\1", t)` where `_MD_LINK_RE = re.compile(r"\[([^\]]+)\]\([^)]+\)")`. -/
def mdLinkSubF : Nat → List Char → List Char
  | 0, s => s
  | _ + 1, [] => []
  | n + 1, c :: cs =>
    match matchMdLink (c :: cs) with
    | some (inner, r) => inner ++ mdLinkSubF n r
    | none => c :: mdLinkSubF n cs

/-- Python `str.replace(pat, rep)`: replace all non-overlapping occurrences,
left to right (for a nonempty `pat`). -/
def replaceAllF (pat rep : List Char) : Nat → List Char → List Char
  | 0, s => s
  | _ + 1, [] => []
  | n + 1, c :: cs =>
    if pat.isPrefixOf (c :: cs) then rep ++ replaceAllF pat rep n ((c :: cs).drop pat.length)
    else c :: replaceAllF pat rep n cs

def replaceAll (pat rep : String) (s : List Char) : List Char :=
  if pat.data.isEmpty then s else replaceAllF pat.data rep.data s.length s

/-- `re.sub(r"^\s{0,3}#{1,6}\s+", "", t)`: at most three leading whitespace
characters, one to six `#`, then at least one whitespace character, removed
from the start of the string only. -/
def stripHeadingMarker (t : List Char) : List Char :=
  let w := t.takeWhile isWs
  if w.length ≤ 3 then
    let afterW := t.drop w.length
    let hs := afterW.takeWhile (fun c => c = '#')
    if 1 ≤ hs.length ∧ hs.length ≤ 6 then
      let afterH := afterW.drop hs.length
      match afterH with
      | c :: _ => if isWs c then afterH.dropWhile isWs else t
      | [] => t
    else t
  else t

/-- `_strip_markdown`. -/
def strip_markdown (text : String) : String :=
  let t := text.data
  let t := mdLinkSubF t.length t
  let t := replaceAll "**" " " t
  let t := replaceAll "__" " " t
  let t := replaceAll "*" " " t
  let t := replaceAll "_" " " t
  let t := stripHeadingMarker t
  let t := replaceAll "`" " " t
  ⟨t⟩

/-- `_cleanup_for_semantic`. -/
def cleanup_for_semantic (text : String) : String :=
  let t := clean_line text
  if t.data.isEmpty then "" else
  let t := strip_html t
  let t := strip_markdown t
  let t : String := ⟨stripChars (collapseWs t.data)⟩
  if t.data.isEmpty then "" else
  if t.data.contains '|' then
    let alnum := (t.data.filter Char.isAlphanum).length
    let pipes := t.data.count '|'
    if alnum ≤ 2 ∧ 1 ≤ pipes then ""
    else if 3 ≤ pipes ∧ (splitWs t).length ≤ 6 ∧ alnum ≤ 8 then ""
    else t
  else t

end ConsentCore

namespace ConsentCore

/-! ### Heading / stub suppression and noise filtering -/

/-- `_CLAUSE_MARKERS`. -/
def clauseMarkers : List String :=
  ["we", "your", "you", "may", "will", "must", "can", "collect", "share",
   "process", "retain", "store", "use", "disclose", "transfer", "sell",
   "delete", "access", "opt", "object", "provide"]

/-- `_has_minimum_substance`. -/
def has_minimum_substance (s : String) : Bool :=
  let words := alphaRuns s
  if 6 ≤ words.length then true
  else
    let lowWords := words.map lowerStr
    lowWords.any (fun w => clauseMarkers.contains w)

/-- Boilerplate phrases recognised by `_looks_like_heading`. -/
def headingBoilerplate : List String :=
  ["this content should be read in conjunction",
   "read in conjunction with",
   "for more information",
   "see our privacy policy",
   "see our policy",
   "in conjunction with the rest of our privacy policy"]

/-- `re.match(r"^\d+(\.\d+)*\s+\S+", t)`: consume the `(\.\d+)*` groups. -/
def dotDigitGroupsF : Nat → List Char → List Char
  | 0, s => s
  | n + 1, '.' :: c :: cs =>
    if c.isDigit then
      let rest := (c :: cs).dropWhile Char.isDigit
      dotDigitGroupsF n rest
    else '.' :: c :: cs
  | _ + 1, s => s

/-- `re.match(r"^\d+(\.\d+)*\s+\S+", t)` as a Boolean. -/
def numberedHeadingMatch (t : String) : Bool :=
  let ds := t.data.takeWhile Char.isDigit
  if ds.isEmpty then false
  else
    let rest := t.data.drop ds.length
    let rest := dotDigitGroupsF rest.length rest
    let wsRun := rest.takeWhile isWs
    ¬ wsRun.isEmpty ∧ ¬ (rest.drop wsRun.length).isEmpty

/-- Verb markers used by `_looks_like_heading`. -/
def headingVerbMarkers : List String :=
  ["is", "are", "was", "were", "be", "been", "being", "have", "has", "had",
   "do", "does", "did", "may", "might", "must", "can", "could", "should",
   "will", "would", "collect", "use", "share", "process", "retain", "store",
   "provide", "disclose", "transfer", "sell", "delete", "access", "opt",
   "object"]

/-- `re.findall(r"[A-Za-z][A-Za-z\-]+", t)`: tokens of a letter followed by
at least one letter or hyphen. -/
def alphaHyphenTokensF : Nat → List Char → List String
  | 0, _ => []
  | _ + 1, [] => []
  | n + 1, c :: cs =>
    if c.isAlpha then
      let run := cs.takeWhile (fun d => d.isAlpha || d = '-')
      if run.isEmpty then alphaHyphenTokensF n cs
      else (⟨c :: run⟩ : String) :: alphaHyphenTokensF n (cs.drop run.length)
    else alphaHyphenTokensF n cs

def alphaHyphenTokens (t : String) : List String :=
  alphaHyphenTokensF t.data.length t.data

/-- Heading nouns recognised by `_looks_like_heading`. -/
def headingNouns : List String :=
  ["information", "interactions", "account", "content", "communication",
   "definitions", "overview", "service providers", "third-party",
   "third parties", "purchase", "payments", "billing"]

/-- Policy verbs checked inside the heading-noun rule. -/
def headingPolicyVerbs : List String :=
  ["collect", "use", "share", "retain", "process", "store", "sell",
   "disclose", "transfer", "provide"]

/-- The heading-noun fallthrough at the end of `_looks_like_heading`. -/
def headingNounCheck (low : String) (numWords : Nat) : Bool :=
  if numWords ≤ 12 ∧ headingNouns.any (fun h => strContains h low) then
    ¬ headingPolicyVerbs.any (fun v => strContains v low)
  else false

/-- `_looks_like_heading`. -/
def looks_like_heading (s : String) : Bool :=
  if s.data.isEmpty then true else
  let t := stripStr s
  let low := lowerStr t
  if ¬ has_minimum_substance t then true else
  if headingBoilerplate.any (fun p => strContains p low) then true else
  if numberedHeadingMatch t ∧ (splitWs t).length ≤ 14 then true else
  if [':'].isSuffixOf t.data ∧ (splitWs t).length ≤ 14 then true else
  let words := splitWs t
  if words.length ≤ 3 then true else
  if ¬ headingVerbMarkers.any (fun v => (splitWs low).contains v) then
    let alphaTokens := alphaHyphenTokens t
    if ¬ alphaTokens.isEmpty then
      let titleLike := (alphaTokens.filter (fun w =>
        match w.data with
        | c :: _ => c.isUpper
        | [] => false)).length
      if 5 * titleLike ≥ 3 * (max 1 alphaTokens.length) ∧ words.length ≤ 10 then true
      else headingNounCheck low words.length
    else headingNounCheck low words.length
  else headingNounCheck low words.length

/-- Characters of the junk set `"-*_[]() <>|:`"` in `_is_noise_sentence`. -/
def noiseJunkChars : List Char := ['-', '*', '_', '[', ']', '(', ')', ' ', '<', '>', '|', ':', '`']

/-- `re.fullmatch(r"\[[^\]]+\]\([^)]+\)", s)`. -/
def fullmatchMdLink (s : List Char) : Bool :=
  match matchMdLink s with
  | some (_, rest) => rest.isEmpty
  | none => false

/-- `re.search(r"^-{3,}\]", s)`: at least three leading dashes followed by `]`. -/
def dashBracketStart (s : List Char) : Bool :=
  let ds := s.takeWhile (fun c => c = '-')
  decide (3 ≤ ds.length) &&
    match s.drop ds.length with
    | ']' :: _ => true
    | _ => false

/-- One `:?-{2,}:?\s*` unit of the markdown-table-row regex; returns the rest
on success. -/
def tableDashUnit (s : List Char) : Option (List Char) :=
  let s1 := match s with
    | ':' :: r => r
    | _ => s
  let ds := s1.takeWhile (fun c => c = '-')
  if ds.length < 2 then none
  else
    let s2 := s1.drop ds.length
    let s3 := match s2 with
      | ':' :: r => r
      | _ => s2
    some (s3.dropWhile isWs)

/-- The `(\|\s*:?-{2,}:?\s*)+\|?\s*` tail of the table-row regex: consume
iterations and then require the optional final pipe and end of input.
`count` is the number of iterations consumed so far. -/
def tableRowIters : Nat → Nat → List Char → Bool
  | 0, count, s => 1 ≤ count ∧ s.isEmpty
  | n + 1, count, s =>
    match s with
    | '|' :: r =>
      match tableDashUnit (r.dropWhile isWs) with
      | some s2 => tableRowIters n (count + 1) s2
      | none => 1 ≤ count ∧ (r.dropWhile isWs).isEmpty
    | r => 1 ≤ count ∧ (r.dropWhile isWs).isEmpty

/-- `re.fullmatch(r"\|?\s*:?-{2,}:?\s*(\|\s*:?-{2,}:?\s*)+\|?\s*", s)`. -/
def tableRowFullmatch (s : List Char) : Bool :=
  let s0 := match s with
    | '|' :: r => r
    | _ => s
  let s1 := s0.dropWhile isWs
  match tableDashUnit s1 with
  | some s2 => tableRowIters s2.length 0 s2
  | none => false

/-- `_is_noise_sentence`. -/
def is_noise_sentence (s : String) : Bool :=
  if s.data.isEmpty then true else
  let t := cleanup_for_semantic s
  if t.data.isEmpty then true else
  let low := lowerStr t
  if t.data.length ≤ 3 then true else
  if t.data.all (fun c => noiseJunkChars.contains c) then true else
  if fullmatchMdLink (stripStr s).data then true else
  if ("* ".data.isPrefixOf t.data ∨ "- ".data.isPrefixOf t.data) ∧ (splitWs t).length < 5 then true else
  if strContains "](https://" s ∧ (splitWs t).length < 6 then true else
  if (strContains "cookies policy" low ∨ strContains "/policies/cookies" low ∨
      strContains "/terms/" low ∨ strContains "/policies/" low) ∧ (splitWs t).length < 12 then true else
  if dashBracketStart (stripStr s).data then true else
  if tableRowFullmatch (stripStr s).data then true else
  looks_like_heading t

end ConsentCore

namespace ConsentCore

/-! ### Rule-based classification (`classify_change`) -/

/-- The `{category, explanation, suggested_action}` dictionary produced by
`classify_change`. -/
structure Meta where
  category : String
  explanation : String
  suggested_action : String
deriving DecidableEq

def collection_markers : List String :=
  ["we collect", "we may collect", "information we collect", "data we collect",
   "we process information", "we may process information",
   "information we receive", "we receive information", "data we receive",
   "information we log", "log data", "log information"]

def sensitive_fields : List String :=
  ["phone number", "location", "gps", "geolocation", "device id",
   "device identifier", "ip address", "contact list", "contacts",
   "payment information", "credit card", "debit card", "browsing history",
   "search history", "usage data", "usage information", "metadata",
   "biometric", "face recognition", "face data", "government id",
   "passport number", "national id", "date of birth"]

def retention_keywords : List String :=
  ["retain your data", "retain personal data", "retention period",
   "stored for", "we retain information", "we retain your information",
   "as long as necessary", "for as long as necessary",
   "for as long as you have an account"]

def sharing_keywords : List String :=
  ["share your information", "share information", "share data",
   "disclose your information", "disclose information", "disclose data",
   "provide information to", "provide your information to", "third parties",
   "third-party", "third party", "partners", "affiliates",
   "service providers", "vendors", "processors", "advertising partners",
   "ad partners", "analytics providers", "social media partners",
   "data brokers", "measurement partners", "business partners",
   "other companies in our group", "group companies", "sell your data",
   "sell your personal data", "sell personal information",
   "monetize your data", "monetise your data"]

def no_sell_phrases_norm : List String :=
  ["we dont sell your personal data", "we do not sell your personal data",
   "we dont sell your personal information",
   "we do not sell your personal information",
   "we never sell your personal data",
   "we never sell your personal information"]

def rights_keywords : List String :=
  ["you have the right to", "you have certain rights", "your privacy rights",
   "data subject rights", "your rights and choices", "you may opt out",
   "you can opt out", "you may opt-out", "you can opt-out", "you can access",
   "you may access", "you can delete", "you may delete",
   "you can request deletion", "you can request erasure", "right to erasure",
   "right to deletion", "you can download your data",
   "you may download your data", "you can port your data",
   "data portability", "you can object", "you may object",
   "you can restrict processing", "restriction of processing",
   "withdraw your consent", "you can withdraw your consent"]

def purpose_keywords : List String :=
  ["for advertising", "for targeted advertising", "for marketing",
   "for analytics", "for measurement", "for research",
   "for research purposes", "to personalise content", "to personalize content",
   "for personalised content", "for personalized content",
   "for personalisation", "to provide personalised services",
   "for safety and integrity", "to improve our services",
   "to develop new services", "advertising", "targeted ads",
   "personalised ads", "personalized ads", "analytics", "measurement",
   "ad effectiveness", "legitimate interests", "our legitimate interests",
   "legal obligation", "comply with legal obligations",
   "contractual necessity", "performance of a contract"]

def security_keywords : List String :=
  ["encryption", "encrypted", "encrypt", "secure", "security measures",
   "technical and organisational measures",
   "technical and organizational measures", "two-factor authentication",
   "2fa", "multi-factor authentication", "access controls", "access control",
   "logging", "monitoring", "intrusion detection", "firewalls",
   "security protocols", "industry-standard security", "safeguards",
   "security practices", "security controls"]

def billing_keywords : List String :=
  ["subscription", "subscription fee", "subscription plan", "billing",
   "billing cycle", "billing period", "charged", "will be charged",
   "charge your", "charge you", "payment", "payment method", "payment card",
   "credit card", "debit card", "invoice", "invoices", "pricing", "price",
   "prices", "fees", "service fee"]

def strong_billing_keywords : List String :=
  ["subscription", "subscription fee", "billing", "billing cycle",
   "billing period", "charged", "will be charged", "charge your",
   "charge you", "pricing", "price", "prices", "fees", "service fee",
   "payment"]

def negative_profiling_phrases : List String :=
  ["we do not engage in profiling", "we do not profile",
   "we do not use profiling",
   "we do not make decisions based solely on automated processing",
   "no automated decision-making that produces legal or similarly significant effects"]

def tracking_keywords : List String :=
  ["cookies", "pixels", "web beacons", "tracking technologies",
   "device identifiers", "device identifier", "browser fingerprints",
   "unique identifiers", "usage information", "usage data",
   "interaction data", "how you use our services", "how you use the service",
   "engagement", "page views", "pages visited", "pages you visit",
   "links clicked", "requested url", "session data", "session information",
   "search terms", "search queries", "ad interactions",
   "interaction with ads", "content interactions", "viewing history",
   "click history", "personalization", "personalisation",
   "personalized recommendations", "personalised recommendations",
   "profile building", "profiling", "inferred information", "inference",
   "preferences based on your activity", "location data", "geolocation",
   "gps", "precise location", "approximate location", "bluetooth", "wifi",
   "ip address"]

def non_precise_location_phrases : List String :=
  ["we don't track your precise location",
   "we do not track your precise location",
   "we don't track your exact location",
   "we do not track your exact location"]

/-- `classify_change(old_line, new_line)`: ordered rule cascade, first
matching rule wins, generic fallback last. -/
def classify_change (old_line new_line : String) : Meta :=
  let old_lower := lowerStr old_line
  let new_lower := lowerStr new_line
  let norm_old := normalize_trivial old_lower
  let norm_new := normalize_trivial new_lower
  let newly_added := sensitive_fields.filter
    (fun f => strContains f new_lower ∧ ¬ strContains f old_lower)
  let newly_removed := sensitive_fields.filter
    (fun f => strContains f old_lower ∧ ¬ strContains f new_lower)
  if (containsAnyKw new_lower collection_markers ∨ containsAnyKw old_lower collection_markers)
      ∧ ¬ newly_added.isEmpty then
    { category := "Data collection expanded",
      explanation := "The policy indicates that additional types of personal or usage data are now collected, including: " ++ String.intercalate ", " newly_added ++ ".",
      suggested_action := "Review whether you are comfortable with these new types of data being collected. If not, adjust your privacy settings or limit the information you provide." }
  else if (containsAnyKw new_lower collection_markers ∨ containsAnyKw old_lower collection_markers)
      ∧ ¬ newly_removed.isEmpty then
    { category := "Data collection reduced",
      explanation := "The policy suggests that some types of personal data are no longer collected, including: " ++ String.intercalate ", " newly_removed ++ ".",
      suggested_action := "This may reduce the amount of personal data processed. You can still review the policy to confirm how your remaining data is used." }
  else if strContains "stored for" old_lower ∧ strContains "stored for" new_lower
      ∧ ¬ (digitRuns old_lower).isEmpty ∧ ¬ (digitRuns new_lower).isEmpty
      ∧ (digitRuns new_lower).headD "" ≠ (digitRuns old_lower).headD "" then
    { category := "Data retention & storage",
      explanation := "The period your data is stored appears to have changed from " ++ (digitRuns old_lower).headD "" ++ " months to " ++ (digitRuns new_lower).headD "" ++ " months.",
      suggested_action := "Consider whether you are comfortable with this storage duration. Check if you can delete older data or request data erasure." }
  else if containsAnyKw new_lower retention_keywords ∧ ¬ containsAnyKw old_lower retention_keywords then
    { category := "Data retention & storage",
      explanation := "The updated policy introduces or clarifies how long your personal data is retained.",
      suggested_action := "Review whether the retention period is acceptable to you and check if you have options to delete data or close your account." }
  else if no_sell_phrases_norm.any (fun p => strContains p norm_new) then
    { category := "Data sharing & third parties",
      explanation := "The policy confirms that your personal data is not sold to third parties, including data brokers. This maintains or clarifies an existing protection against the sale of your personal data.",
      suggested_action := "You may still wish to review how your data is shared with partners or service providers for non-selling purposes such as analytics or advertising." }
  else if no_sell_phrases_norm.any (fun p => strContains p norm_old)
      ∧ ¬ no_sell_phrases_norm.any (fun p => strContains p norm_new) then
    { category := "Data sharing & third parties",
      explanation := "A previous statement that your personal data would not be sold to third parties no longer appears in the policy. This may signal a change in how your data can be monetised or shared.",
      suggested_action := "Review the updated sharing and monetisation terms carefully and check whether you can limit certain types of data sharing or advertising in your account settings." }
  else if containsAnyKw new_lower sharing_keywords ∧ ¬ containsAnyKw old_lower sharing_keywords then
    { category := "Data sharing & third parties",
      explanation := "The updated policy indicates that your data may now be shared with additional third parties, such as partners, advertisers, service providers, or group companies.",
      suggested_action := "Check which third parties are involved and whether you can opt out of certain types of sharing or limit data transfers in your account settings." }
  else if strContains "advertising partners" new_lower ∧ ¬ strContains "advertising partners" old_lower then
    { category := "Data sharing & third parties",
      explanation := "Your usage data may now be shared specifically with advertising partners.",
      suggested_action := "Review your advertising preferences and, if desired, opt out of personalised ads or tracking." }
  else if containsAnyKw new_lower rights_keywords ∧ ¬ containsAnyKw old_lower rights_keywords then
    { category := "User rights & controls",
      explanation := "The updated policy describes additional rights or controls you have over your personal data, such as new ways to opt out, delete your data, or exercise privacy rights.",
      suggested_action := "Review the available rights and consider whether you wish to exercise any of them, for example by requesting data deletion or adjusting consent settings." }
  else if containsAnyKw new_lower purpose_keywords ∧ ¬ containsAnyKw old_lower purpose_keywords then
    { category := "Purpose & legal basis",
      explanation := "The updated policy introduces or expands the purposes for which your data is used (e.g., advertising, analytics, research, or security) or clarifies the legal basis for processing.",
      suggested_action := "Check whether you are comfortable with these purposes and, where applicable, adjust your consent or opt-out preferences." }
  else if containsAnyKw new_lower security_keywords ∧ ¬ containsAnyKw old_lower security_keywords then
    { category := "Security & safety measures",
      explanation := "The updated policy describes new or enhanced security measures to protect your data, such as encryption, access controls, or monitoring.",
      suggested_action := "This may improve protection of your data. You can still review details to understand what changed." }
  else if containsAnyKw new_lower billing_keywords ∧ ¬ containsAnyKw old_lower billing_keywords
      ∧ containsAnyKw new_lower strong_billing_keywords then
    { category := "Billing & financial terms",
      explanation := "The updated policy introduces or changes billing/payment-related terms (subscriptions, fees, pricing, or payment methods).",
      suggested_action := "Review these financial terms carefully to understand any new costs or obligations." }
  else if containsAnyKw new_lower negative_profiling_phrases ∧ ¬ containsAnyKw old_lower negative_profiling_phrases then
    { category := "Profiling limitations & safeguards",
      explanation := "The updated policy explicitly limits profiling or automated decision-making that could significantly affect you, which generally strengthens your protections.",
      suggested_action := "This appears protective. You may still review how data is used for personalisation or recommendations." }
  else if containsAnyKw old_lower non_precise_location_phrases ∧ ¬ containsAnyKw new_lower non_precise_location_phrases then
    { category := "Tracking, analytics & profiling",
      explanation := "A previous reassurance that your precise location is not tracked appears to have been removed. This may indicate broader or more granular location tracking.",
      suggested_action := "Review location/tracking terms and consider restricting location access in device settings." }
  else if containsAnyKw new_lower tracking_keywords ∧ ¬ containsAnyKw old_lower tracking_keywords then
    { category := "Tracking, analytics & profiling",
      explanation := "The updated policy indicates expanded tracking or behavioural analytics (e.g., interactions, pages visited, search terms, click activity, or location) which may be used for personalisation or profiling.",
      suggested_action := "Review privacy settings to limit tracking/analytics. Consider disabling personalised ads, restricting cookies, or using privacy tools if concerned about behavioural profiling." }
  else
    { category := "Other policy change",
      explanation := "This section of the policy text has been modified.",
      suggested_action := "Read this part of the policy carefully to understand how it affects your data." }

end ConsentCore

namespace ConsentCore

/-! ### Risk scoring (`_estimate_risk`, `_content_risk_bump`, `_risk_label`) -/

/-- `_estimate_risk`: category-driven base score. -/
def estimate_risk (meta : Meta) : ℚ :=
  let cat := lowerStr meta.category
  if strContains "data sharing" cat ∨ strContains "third parties" cat ∨ strContains "advertisers" cat then 3
  else if strContains "tracking" cat ∨ strContains "location" cat ∨ strContains "profiling" cat then 5/2
  else if strContains "data retention" cat ∨ strContains "storage" cat then 11/5
  else if strContains "user rights" cat ∨ strContains "controls" cat then 11/5
  else if strContains "data collection expanded" cat then 2
  else if strContains "purpose" cat ∨ strContains "legal basis" cat then 9/5
  else if strContains "billing" cat ∨ strContains "financial" cat then 9/5
  else if strContains "security" cat then 3/2
  else if strContains "profiling limitations" cat ∨ strContains "safeguards" cat then 7/10
  else 1/2

/-- Tokens of the tiny regex language used by the `_content_risk_bump`
patterns: a literal character, `\s` (exactly one whitespace character),
`\s+`, or `\s*`. -/
inductive RTok where
  | ch (c : Char)
  | wsOne
  | wsPlus
  | wsStar
deriving DecidableEq

/-- Match a token sequence at the head of the input; on success return the
rest.  `\s+`/`\s*` consume the whole whitespace run, which is equivalent to
the regex since no pattern continues with a whitespace-class character. -/
def matchRToks : List RTok → List Char → Option (List Char)
  | [], s => some s
  | RTok.ch c :: ps, x :: xs => if x = c then matchRToks ps xs else none
  | RTok.ch _ :: _, [] => none
  | RTok.wsOne :: ps, x :: xs => if isWs x then matchRToks ps xs else none
  | RTok.wsOne :: _, [] => none
  | RTok.wsPlus :: ps, s =>
    let run := s.takeWhile isWs
    if run.isEmpty then none else matchRToks ps (s.drop run.length)
  | RTok.wsStar :: ps, s => matchRToks ps (s.dropWhile isWs)

/-- Lift a plain string to literal tokens. -/
def rlit (s : String) : List RTok := s.data.map RTok.ch

/-- A `\b`-delimited alternative: the token sequence and whether its final
character is a word character (`true` for the alternatives ending in a
letter, `false` for `ad\s`, whose final `\s` is a non-word character).  The
trailing `\b` then requires the next input character to be on the other
side of the word/non-word divide. -/
abbrev RAlt := List RTok × Bool

/-- Does the end-of-match boundary `\b` hold, given whether the last matched
character was a word character and the remaining input? -/
def boundaryAfter (endsWord : Bool) (rest : List Char) : Bool :=
  match rest with
  | [] => endsWord
  | c :: _ => if endsWord then ¬ isWordChar c else isWordChar c

/-- `re.search(r"\b(alt1|alt2|…)\b", t)`: try every alternative at every
position whose preceding character is not a word character (every
alternative starts with a letter, so the leading `\b` reduces to that). -/
def searchWordAlts (alts : List RAlt) : Bool → List Char → Bool
  | _, [] => false
  | prevIsWord, c :: cs =>
    (¬ prevIsWord ∧ alts.any (fun alt =>
        match matchRToks alt.1 (c :: cs) with
        | some rest => boundaryAfter alt.2 rest
        | none => false)) ∨
    searchWordAlts alts (isWordChar c) cs

/-- `re.search(r"\b(advertis|ad\s|third\s+party|partner|data\s*broker)\b", t)`. -/
def bumpAdsAlts : List RAlt :=
  [(rlit "advertis", true),
   (rlit "ad" ++ [RTok.wsOne], false),
   (rlit "third" ++ [RTok.wsPlus] ++ rlit "party", true),
   (rlit "partner", true),
   (rlit "data" ++ [RTok.wsStar] ++ rlit "broker", true)]

/-- `re.search(r"\b(combine|across|affiliate|affiliates|meta\s+companies)\b", t)`. -/
def bumpCombineAlts : List RAlt :=
  [(rlit "combine", true),
   (rlit "across", true),
   (rlit "affiliate", true),
   (rlit "affiliates", true),
   (rlit "meta" ++ [RTok.wsPlus] ++ rlit "companies", true)]

/-- `re.search(r"\b(sell|selling|share\s+for\s+advertis|profiling|inference|infer)\b", t)`. -/
def bumpSellAlts : List RAlt :=
  [(rlit "sell", true),
   (rlit "selling", true),
   (rlit "share" ++ [RTok.wsPlus] ++ rlit "for" ++ [RTok.wsPlus] ++ rlit "advertis", true),
   (rlit "profiling", true),
   (rlit "inference", true),
   (rlit "infer", true)]

/-- The first content-bump trigger (+0.5), on the normalized text. -/
def bumpAdsTrigger (text : String) : Bool :=
  searchWordAlts bumpAdsAlts false (normalize_trivial text).data

/-- The second content-bump trigger (+0.5), on the normalized text. -/
def bumpCombineTrigger (text : String) : Bool :=
  searchWordAlts bumpCombineAlts false (normalize_trivial text).data

/-- The third content-bump trigger (+0.7), on the normalized text. -/
def bumpSellTrigger (text : String) : Bool :=
  searchWordAlts bumpSellAlts false (normalize_trivial text).data

/-- `_content_risk_bump`. -/
def content_risk_bump (text : String) : ℚ :=
  let bump : ℚ := 0
  let bump := if bumpAdsTrigger text then bump + 1/2 else bump
  let bump := if bumpCombineTrigger text then bump + 1/2 else bump
  let bump := if bumpSellTrigger text then bump + 7/10 else bump
  bump

/-- `_risk_label`. -/
def risk_label (score : ℚ) : String :=
  if 5/2 ≤ score then "High"
  else if 3/2 ≤ score then "Medium"
  else "Low"

/-- `infer_theme(category, text)`. -/
def infer_theme (category text : String) : String :=
  let c := lowerStr category
  let t := lowerStr text
  if strContains "sharing" c ∨ strContains "third" c ∨ strContains "sell" t ∨ strContains "broker" t then "data_sharing"
  else if strContains "tracking" c ∨ strContains "profil" c ∨ strContains "cookie" t ∨ strContains "pixel" t then "tracking"
  else if strContains "retention" c ∨ strContains "storage" c ∨ strContains "retain" t then "retention"
  else if strContains "rights" c ∨ strContains "controls" c ∨ strContains "opt" t ∨ strContains "delete" t then "rights"
  else if strContains "collection" c ∨ strContains "collect" t ∨ strContains "receive" t then "collection"
  else if strContains "security" c ∨ strContains "encrypt" t ∨ strContains "2fa" t then "security"
  else if strContains "billing" c ∨ strContains "subscription" t ∨ strContains "fee" t then "billing"
  else if strContains "purpose" c ∨ strContains "legal" c ∨ strContains "advertising" t ∨ strContains "analytics" t then "purpose"
  else "other"

end ConsentCore

namespace ConsentCore

/-! ### Change records and Python's stable descending sort -/

/-- A change dictionary as built by the two engines.  Keys that a given
engine does not set are `none` (for `old`/`new`/indices/similarity) or `""`
(for the `type` string, which basic-mode changes never set). -/
structure Change where
  line_number : Option Nat := none
  old_index : Option Nat := none
  new_index : Option Nat := none
  ctype : String := ""
  old : Option String := none
  new : Option String := none
  similarity : Option ℚ := none
  category : String := ""
  explanation : String := ""
  suggested_action : String := ""
  risk_score : ℚ := 0
  risk_label : String := ""
  confidence : ℚ := 0
  theme : String := ""
deriving DecidableEq, Inhabited

/-- Comparator for the index-decorated stable descending sort: an element
may precede another iff its key is lexicographically greater, or the keys
are equal and its original index is not larger.  The key is a pair
(ℚ, String); single-key sorts use `""` as the constant second component. -/
def pyRelB (key : α → ℚ × String) (p q : Nat × α) : Bool :=
  let ka := key p.2
  let kb := key q.2
  if kb.1 < ka.1 then true
  else if ka.1 = kb.1 then
    if kb.2 < ka.2 then true
    else if ka.2 = kb.2 then decide (p.1 ≤ q.1)
    else false
  else false

def pyRel (key : α → ℚ × String) (p q : Nat × α) : Prop := pyRelB key p q = true

instance (key : α → ℚ × String) : DecidableRel (pyRel key) :=
  fun p q => instDecidableEqBool (pyRelB key p q) true

/-- Python's stable `list.sort(key=key, reverse=True)`: sort the
index-decorated list by the total order `pyRel key` (key descending,
original index ascending on ties) and drop the decoration.  Stability of
Python's sort means exactly that tied keys keep their index order, so this
is the unique result any correct implementation produces. -/
def pySortDesc (key : α → ℚ × String) (l : List α) : List α :=
  ((l.enum).insertionSort (pyRel key)).map Prod.snd

/-! ### Basic line-by-line engine -/

/-- A raw entry of `find_line_changes`. -/
structure LineChange where
  line_number : Nat
  old : String
  new : String
deriving DecidableEq

/-- `find_line_changes(old_lines, new_lines)`: position-by-position
comparison over `zip` (hence up to the shorter document only), 1-based
line numbers, cleaned lines. -/
def find_line_changes (old_lines new_lines : List String) : List LineChange :=
  ((old_lines.zip new_lines).enum).filterMap (fun p =>
    let o_clean := clean_line p.2.1
    let n_clean := clean_line p.2.2
    if o_clean ≠ n_clean then
      some { line_number := p.1 + 1, old := o_clean, new := n_clean }
    else none)

/-- The enrichment step of `analyze_policy_change_basic` for one line change. -/
def enrichBasic (ch : LineChange) : Change :=
  let meta := classify_change ch.old ch.new
  let joined := ch.old ++ " " ++ ch.new
  let base := estimate_risk meta
  let bump := content_risk_bump joined
  let score := base + bump
  { line_number := some ch.line_number,
    old := some ch.old,
    new := some ch.new,
    category := meta.category,
    explanation := meta.explanation,
    suggested_action := meta.suggested_action,
    risk_score := score,
    risk_label := risk_label score,
    confidence := 7/10,
    theme := infer_theme meta.category joined }

/-- `analyze_policy_change_basic(old_text, new_text)`. -/
def analyze_policy_change_basic (old_text new_text : String) : List Change :=
  let old_lines := splitlinesPy old_text
  let new_lines := splitlinesPy new_text
  let enriched := (find_line_changes old_lines new_lines).map enrichBasic
  pySortDesc (fun ch => (ch.risk_score, "")) enriched

/-! ### Dedupe and trim (`_change_signature`, `_dedupe_and_trim_changes`) -/

/-- `_change_signature(ch)`. -/
def change_signature (ch : Change) : String :=
  let ctype := stripStr ch.ctype
  let cat := stripStr ch.category
  let base_text :=
    if ctype = "added" ∨ ctype = "modified" then stripStr (ch.new.getD "")
    else stripStr (ch.old.getD "")
  let base_text := (normalize_trivial base_text).data
  let base_text : List Char := if 220 < base_text.length then base_text.take 220 else base_text
  ctype ++ "|" ++ cat ++ "|" ++ (⟨base_text⟩ : String)

/-- The category under which `_dedupe_and_trim_changes` counts a change:
`(ch.get("category") or "Other policy change").strip()`. -/
def dedupeCat (ch : Change) : String :=
  stripStr (if ch.category = "" then "Other policy change" else ch.category)

/-- The representative text `_dedupe_and_trim_changes` runs the noise
filter on: the new text for added/modified changes, the old text otherwise. -/
def dedupeNoiseText (ch : Change) : String :=
  if stripStr ch.ctype = "added" ∨ stripStr ch.ctype = "modified" then ch.new.getD ""
  else ch.old.getD ""

/-- The per-category counter after registering one change of category `cat`. -/
def bumpCatCount (perCat : String → Nat) (cat : String) : String → Nat :=
  fun c => if c = cat then perCat cat + 1 else perCat c

/-- The loop of `_dedupe_and_trim_changes`.  `seen` is the signature set,
`perCat` the per-category counter, `outLen` the number of changes already
emitted.  Appending a change and then reaching `max_total` stops the loop
(`break`). -/
def dedupeAux (max_total max_per_category : Nat) :
    List String → (String → Nat) → Nat → List Change → List Change
  | _, _, _, [] => []
  | seen, perCat, outLen, ch :: rest =>
    if is_noise_sentence (dedupeNoiseText ch) then
      dedupeAux max_total max_per_category seen perCat outLen rest
    else if change_signature ch ∈ seen then
      dedupeAux max_total max_per_category seen perCat outLen rest
    else if max_per_category < perCat (dedupeCat ch) + 1 then
      dedupeAux max_total max_per_category (change_signature ch :: seen)
        (bumpCatCount perCat (dedupeCat ch)) outLen rest
    else if max_total ≤ outLen + 1 then [ch]
    else ch :: dedupeAux max_total max_per_category (change_signature ch :: seen)
      (bumpCatCount perCat (dedupeCat ch)) (outLen + 1) rest

/-- `_dedupe_and_trim_changes(changes, max_total=…, max_per_category=…)`. -/
def dedupe_and_trim_changes (changes : List Change)
    (max_total max_per_category : Nat) : List Change :=
  dedupeAux max_total max_per_category [] (fun _ => 0) 0 changes

end ConsentCore

namespace ConsentCore

/-! ### Semantic alignment engine -/

/-- An alignment dictionary produced by `align_sentences_semantic`. -/
structure Alignment where
  old_index : Option Nat := none
  new_index : Option Nat := none
  old : Option String := none
  new : Option String := none
  similarity : Option ℚ := none
  atype : String := ""
deriving DecidableEq, Inhabited

/-- `torch.argmax` over `f 0, …, f (n-1)`: the first index attaining the
maximum (later indices replace the current best only on a strictly larger
value). -/
def argmaxFirst (f : Nat → ℚ) : Nat → Nat
  | 0 => 0
  | n + 1 =>
    let b := argmaxFirst f n
    if f b < f n then n else b

/-- `best_j` for old-sentence row `i`. -/
def alignBestJ (sim : Nat → Nat → ℚ) (nNew i : Nat) : Nat := argmaxFirst (sim i) nNew

/-- `best_score` for old-sentence row `i`. -/
def alignBestScore (sim : Nat → Nat → ℚ) (nNew i : Nat) : ℚ := sim i (alignBestJ sim nNew i)

/-- The alignment the loop body of `align_sentences_semantic` appends for
old-sentence index `i`. -/
def alignOldRow (sim : Nat → Nat → ℚ) (old_sentences new_sentences : List String)
    (threshold_same threshold_any : ℚ) (i : Nat) : Alignment :=
  let nNew := new_sentences.length
  let best_j := alignBestJ sim nNew i
  let best_score := alignBestScore sim nNew i
  let old := old_sentences.getD i ""
  let new := new_sentences.getD best_j ""
  if threshold_same ≤ best_score then
    { old_index := some i, new_index := some best_j, old := some old, new := some new,
      similarity := some best_score,
      atype := if old = new ∨ is_trivial_change old new best_score then "unchanged" else "modified" }
  else if threshold_any ≤ best_score then
    { old_index := some i, new_index := some best_j, old := some old, new := some new,
      similarity := some best_score, atype := "modified" }
  else
    { old_index := some i, new_index := none, old := some old, new := none,
      similarity := some best_score, atype := "removed" }

/-- `matched_new_indices`: the `best_j` of every old row whose best score
reached one of the thresholds (the two branches that mark `j*` consumed). -/
def alignMatched (sim : Nat → Nat → ℚ) (nOld nNew : Nat)
    (threshold_same threshold_any : ℚ) : List Nat :=
  (List.range nOld).filterMap (fun i =>
    if threshold_same ≤ alignBestScore sim nNew i ∨ threshold_any ≤ alignBestScore sim nNew i then
      some (alignBestJ sim nNew i)
    else none)

/-- The "added" alignment for an unconsumed new-sentence index. -/
def alignAdded (new_sentences : List String) (j : Nat) : Alignment :=
  { old_index := none, new_index := some j, old := none,
    new := some (new_sentences.getD j ""), similarity := none, atype := "added" }

/-- `align_sentences_semantic(old_sentences, new_sentences, model,
threshold_same=0.85, threshold_any_match=0.60)`, with the model's cosine
similarity matrix abstracted as `sim`. -/
def align_sentences_semantic (sim : Nat → Nat → ℚ)
    (old_sentences new_sentences : List String)
    (threshold_same threshold_any : ℚ) : List Alignment :=
  let nOld := old_sentences.length
  let nNew := new_sentences.length
  (List.range nOld).map (alignOldRow sim old_sentences new_sentences threshold_same threshold_any) ++
    ((List.range nNew).filter
        (fun j => j ∉ alignMatched sim nOld nNew threshold_same threshold_any)).map
      (alignAdded new_sentences)

/-! ### Semantic pipeline (`analyze_policy_change_semantic`) -/

/-- `split_into_sentences` (line-based branch): stripped nonempty lines. -/
def split_into_sentences (text : String) : List String :=
  ((splitlinesPy text).map stripStr).filter (fun s => ¬ s.data.isEmpty)

/-- The sentence preparation of `analyze_policy_change_semantic`: split,
clean, and drop empty or noisy sentences. -/
def semanticSentences (text : String) : List String :=
  (((split_into_sentences text).map cleanup_for_semantic).filter
    (fun s => ¬ s.data.isEmpty ∧ ¬ is_noise_sentence s))

/-- `sim is not None and float(sim) >= q` as a Boolean. -/
def simAtLeast (x : Option ℚ) (q : ℚ) : Bool :=
  match x with
  | some s => decide (q ≤ s)
  | none => false

/-- The enrichment loop body of `analyze_policy_change_semantic` for one
alignment; `none` when the loop `continue`s without appending. -/
def enrichSemantic (a : Alignment) : Option Change :=
  let old_sent := a.old.getD ""
  let new_sent := a.new.getD ""
  if a.atype = "unchanged" then none else
  let old_sent_c := cleanup_for_semantic old_sent
  let new_sent_c := cleanup_for_semantic new_sent
  if (a.atype = "added" ∨ a.atype = "modified") ∧ is_noise_sentence new_sent_c then none else
  if a.atype = "removed" ∧ is_noise_sentence old_sent_c then none else
  let joined := stripStr (old_sent_c ++ " " ++ new_sent_c)
  if a.atype = "modified" then
    let meta := classify_change old_sent_c new_sent_c
    if meta.category = "Other policy change" ∧ simAtLeast a.similarity (95/100) then none
    else
      let base := estimate_risk meta
      let bump := content_risk_bump joined
      let score := base + bump
      some { old_index := a.old_index, new_index := a.new_index, ctype := a.atype,
             old := some old_sent_c, new := some new_sent_c, similarity := a.similarity,
             category := meta.category, explanation := meta.explanation,
             suggested_action := meta.suggested_action,
             risk_score := score, risk_label := risk_label score,
             confidence := a.similarity.getD (6/10),
             theme := infer_theme meta.category joined }
  else if a.atype = "added" then
    if looks_like_heading new_sent_c then none else
    let meta := classify_change "" new_sent_c
    if meta.category = "Other policy change" ∧ (splitWs new_sent_c).length < 10 then none
    else
      let base := estimate_risk meta
      let bump := content_risk_bump new_sent_c
      let score := base + 1/2 + bump
      some { old_index := a.old_index, new_index := a.new_index, ctype := a.atype,
             old := none, new := some new_sent_c, similarity := a.similarity,
             category := meta.category, explanation := meta.explanation,
             suggested_action := meta.suggested_action,
             risk_score := score, risk_label := risk_label score, confidence := 6/10,
             theme := infer_theme meta.category new_sent_c }
  else if a.atype = "removed" then
    if looks_like_heading old_sent_c then none else
    let meta := classify_change old_sent_c ""
    let base := estimate_risk meta
    let bump := content_risk_bump old_sent_c
    let base := if meta.category = "User rights & controls" then max base 2 else base
    let score := base + bump
    some { old_index := a.old_index, new_index := a.new_index, ctype := a.atype,
           old := some old_sent_c, new := none, similarity := a.similarity,
           category := meta.category, explanation := meta.explanation,
           suggested_action := meta.suggested_action,
           risk_score := score, risk_label := risk_label score, confidence := 6/10,
           theme := infer_theme meta.category old_sent_c }
  else none

/-- The enriched change list of `analyze_policy_change_semantic`, before
sorting and trimming. -/
def semanticEnriched (sim : Nat → Nat → ℚ) (old_text new_text : String) : List Change :=
  (align_sentences_semantic sim (semanticSentences old_text) (semanticSentences new_text)
      (85/100) (60/100)).filterMap enrichSemantic

/-- The enriched change list after the final
`sorted(key=lambda x: (risk_score, category), reverse=True)`. -/
def semanticSorted (sim : Nat → Nat → ℚ) (old_text new_text : String) : List Change :=
  pySortDesc (fun ch => (ch.risk_score, ch.category)) (semanticEnriched sim old_text new_text)

/-- `analyze_policy_change_semantic(old_text, new_text, model)`, with the
model's similarity matrix abstracted as `sim` (the semantic backend is
assumed available, as the claims do). -/
def analyze_policy_change_semantic (sim : Nat → Nat → ℚ) (old_text new_text : String) :
    List Change :=
  let old_sentences := semanticSentences old_text
  let new_sentences := semanticSentences new_text
  if old_sentences.isEmpty ∨ new_sentences.isEmpty then []
  else if (semanticEnriched sim old_text new_text).isEmpty then []
  else dedupe_and_trim_changes (semanticSorted sim old_text new_text) 25 6

end ConsentCore

namespace ConsentApi

open ConsentCore

/-! ### API layer (`backend/api_main.py`) -/

/-- `_run_engine_texts`, restricted to the list of changes it produces (the
response formatting copies each change's fields unchanged into the
`changes` array).  `mode` is `"basic"` or `"semantic"`; the semantic
backend's similarity matrix is the `sim` parameter. -/
def run_engine_changes (mode : String) (sim : Nat → Nat → ℚ)
    (old_text new_text : String) (max_changes : Nat) : List Change :=
  let old_text := stripStr old_text
  let new_text := stripStr new_text
  let max_changes := max 1 (min max_changes 500)
  if old_text.data.isEmpty ∨ new_text.data.isEmpty then []
  else if mode = "basic" then
    (analyze_policy_change_basic old_text new_text).take max_changes
  else
    (analyze_policy_change_semantic sim old_text new_text).take max_changes

/-- `_theme_title`. -/
def theme_title (theme : String) : String :=
  if theme = "data_sharing" then "Data sharing & third parties"
  else if theme = "tracking" then "Tracking, ads & profiling"
  else if theme = "retention" then "Data retention & storage"
  else if theme = "collection" then "Data collection"
  else if theme = "rights" then "User rights & controls"
  else if theme = "purpose" then "Purpose & legal basis"
  else if theme = "security" then "Security & safety"
  else if theme = "billing" then "Billing & payments"
  else if theme = "other" then "Other"
  else theme

/-- `_theme_from_change`: the change's own `theme` if set, else a category
fallback. -/
def theme_from_change (c : Change) : String :=
  let theme := stripStr c.theme
  if ¬ theme.data.isEmpty then theme
  else
    let cat := lowerStr c.category
    if strContains "sharing" cat ∨ strContains "third" cat ∨ strContains "advertis" cat then "data_sharing"
    else if strContains "tracking" cat ∨ strContains "profil" cat ∨ strContains "location" cat then "tracking"
    else if strContains "retention" cat ∨ strContains "storage" cat then "retention"
    else if strContains "rights" cat ∨ strContains "controls" cat then "rights"
    else if strContains "collection" cat then "collection"
    else if strContains "purpose" cat ∨ strContains "legal basis" cat then "purpose"
    else if strContains "security" cat then "security"
    else if strContains "billing" cat ∨ strContains "financial" cat then "billing"
    else "other"

/-- A theme summary entry.  `items` keeps the full `Change` records; the
code projects each onto a fixed set of fields, which preserves the fields
the claims mention. -/
structure ThemeBucket where
  theme : String
  title : String
  score : ℚ
  count : Nat
  items : List Change
deriving DecidableEq, Inhabited

/-- Distinct themes in first-appearance order (Python dict insertion
order of `buckets`). -/
def themesInOrder (changes : List Change) : List String :=
  (changes.map theme_from_change).foldl
    (fun acc t => if t ∈ acc then acc else acc ++ [t]) []

/-- The bucket of a theme, in input order. -/
def themeBucket (changes : List Change) (t : String) : List Change :=
  changes.filter (fun c => theme_from_change c = t)

/-- `max(float(i.get("risk_score", 0.0) or 0.0) for i in items)`, with the
`except`-clause value 0.0 for an empty bucket. -/
def bucketMaxRisk (items : List Change) : ℚ :=
  match items with
  | [] => 0
  | x :: rest => rest.foldl (fun m i => max m i.risk_score) x.risk_score

/-- The score of a theme bucket: max risk plus a small boost for count. -/
def themeScore (changes : List Change) (t : String) : ℚ :=
  bucketMaxRisk (themeBucket changes t) + 15/100 * min 10 (themeBucket changes t).length

/-- `summarise_changes_to_themes(changes, max_themes=3, max_items_per_theme=4)`. -/
def summarise_changes_to_themes (changes : List Change)
    (max_themes max_items_per_theme : Nat) : List ThemeBucket :=
  let scored : List (String × ℚ × Nat) :=
    (themesInOrder changes).map (fun t =>
      (t, themeScore changes t, (themeBucket changes t).length))
  let sorted := pySortDesc (fun x => (x.2.1, "")) scored
  let top := sorted.take max_themes
  top.map (fun x =>
    { theme := x.1, title := theme_title x.1, score := x.2.1, count := x.2.2,
      items := (pySortDesc (fun c => (c.risk_score, "")) (themeBucket changes x.1)).take
        (max 1 max_items_per_theme) })

end ConsentApi

namespace ConsentCore

/-! ### Properties of the stable descending sort -/

/-- Unfolding characterisation of the sort comparator. -/
theorem pyRel_iff (key : α → ℚ × String) (p q : Nat × α) :
    pyRel key p q ↔
      (key q.2).1 < (key p.2).1 ∨
        ((key p.2).1 = (key q.2).1 ∧
          ((key q.2).2 < (key p.2).2 ∨
            ((key p.2).2 = (key q.2).2 ∧ p.1 ≤ q.1))) := by
  unfold pyRel pyRelB
  dsimp only
  split_ifs with h1 h2 h3 h4 <;> simp_all

theorem pyRel_total (key : α → ℚ × String) (p q : Nat × α) :
    pyRel key p q ∨ pyRel key q p := by
  rw [pyRel_iff, pyRel_iff]
  rcases lt_trichotomy (key p.2).1 (key q.2).1 with h1 | h1 | h1
  · right; exact Or.inl h1
  · rcases lt_trichotomy (key p.2).2 (key q.2).2 with h2 | h2 | h2
    · right; exact Or.inr ⟨h1.symm, Or.inl h2⟩
    · rcases Nat.le_total p.1 q.1 with h3 | h3
      · left; exact Or.inr ⟨h1, Or.inr ⟨h2, h3⟩⟩
      · right; exact Or.inr ⟨h1.symm, Or.inr ⟨h2.symm, h3⟩⟩
    · left; exact Or.inr ⟨h1, Or.inl h2⟩
  · left; exact Or.inl h1

theorem pyRel_trans (key : α → ℚ × String) (p q r : Nat × α) :
    pyRel key p q → pyRel key q r → pyRel key p r := by
  rw [pyRel_iff, pyRel_iff, pyRel_iff]
  rintro (h1 | ⟨h1, h2 | ⟨h2, h3⟩⟩) (g1 | ⟨g1, g2 | ⟨g2, g3⟩⟩)
  · exact Or.inl (lt_trans g1 h1)
  · exact Or.inl (g1 ▸ h1)
  · exact Or.inl (g1 ▸ h1)
  · exact Or.inl (h1 ▸ g1)
  · exact Or.inr ⟨h1.trans g1, Or.inl (lt_trans g2 h2)⟩
  · exact Or.inr ⟨h1.trans g1, Or.inl (g2 ▸ h2)⟩
  · exact Or.inl (h1 ▸ g1)
  · exact Or.inr ⟨h1.trans g1, Or.inl (h2 ▸ g2)⟩
  · exact Or.inr ⟨h1.trans g1, Or.inr ⟨h2.trans g2, h3.trans g3⟩⟩

instance pyRelIsTotal (key : α → ℚ × String) : IsTotal (Nat × α) (pyRel key) :=
  ⟨pyRel_total key⟩

instance pyRelIsTrans (key : α → ℚ × String) : IsTrans (Nat × α) (pyRel key) :=
  ⟨pyRel_trans key⟩

/-- The sort is a permutation of its input. -/
theorem pySortDesc_perm (key : α → ℚ × String) (l : List α) :
    List.Perm (pySortDesc key l) l := by
  unfold pySortDesc
  have h := (List.perm_insertionSort (pyRel key) l.enum).map Prod.snd
  rwa [List.enum_map_snd] at h

theorem mem_pySortDesc (key : α → ℚ × String) {l : List α} {x : α} :
    x ∈ pySortDesc key l ↔ x ∈ l :=
  (pySortDesc_perm key l).mem_iff

/-- The undecorated ordering guarantee of the sort: key descending, with
equal-first-component ties in non-ascending second component or full key
equality. -/
theorem pySortDesc_pairwise (key : α → ℚ × String) (l : List α) :
    List.Pairwise (fun a b =>
      (key b).1 < (key a).1 ∨
        ((key a).1 = (key b).1 ∧ ((key b).2 < (key a).2 ∨ (key a).2 = (key b).2)))
      (pySortDesc key l) := by
  unfold pySortDesc
  have h := List.sorted_insertionSort (pyRel key) l.enum
  have h2 : List.Pairwise (fun p q : Nat × α =>
      (key q.2).1 < (key p.2).1 ∨
        ((key p.2).1 = (key q.2).1 ∧
          ((key q.2).2 < (key p.2).2 ∨ (key p.2).2 = (key q.2).2))) _ :=
    h.imp (fun hpq => by
      rcases (pyRel_iff key _ _).1 hpq with h1 | ⟨h1, h2 | ⟨h2, _⟩⟩
      · exact Or.inl h1
      · exact Or.inr ⟨h1, Or.inl h2⟩
      · exact Or.inr ⟨h1, Or.inr h2⟩)
  exact (List.pairwise_map).2 h2

end ConsentCore

namespace ConsentCore

/-! ### Properties of `_dedupe_and_trim_changes` -/

/-- The dedupe loop emits a sublist of its input (order-preserving
selection). -/
theorem dedupeAux_sublist (mt mpc : Nat) :
    ∀ (l : List Change) (seen : List String) (perCat : String → Nat) (outLen : Nat),
      List.Sublist (dedupeAux mt mpc seen perCat outLen l) l := by
  intro l
  induction l with
  | nil => intro seen perCat outLen; simp [dedupeAux]
  | cons ch rest ih =>
    intro seen perCat outLen
    rw [dedupeAux]
    split
    · exact (ih _ _ _).cons ch
    · split
      · exact (ih _ _ _).cons ch
      · split
        · exact (ih _ _ _).cons ch
        · split
          · exact (List.nil_sublist rest).cons₂ ch
          · exact (ih _ _ _).cons₂ ch

/-- Length bound for the dedupe loop: starting below `max_total`, it emits
at most `max_total - outLen` changes. -/
theorem dedupeAux_length (mt mpc : Nat) :
    ∀ (l : List Change) (seen : List String) (perCat : String → Nat) (outLen : Nat),
      outLen < mt → (dedupeAux mt mpc seen perCat outLen l).length ≤ mt - outLen := by
  intro l
  induction l with
  | nil => intro seen perCat outLen h; simp [dedupeAux]
  | cons ch rest ih =>
    intro seen perCat outLen h
    rw [dedupeAux]
    split
    · exact ih _ _ _ h
    · split
      · exact ih _ _ _ h
      · split
        · exact ih _ _ _ h
        · split
          · simp only [List.length_singleton]
            omega
          · rename_i hbreak
            have h2 : outLen + 1 < mt := by omega
            have h3 := ih (change_signature ch :: seen)
              (bumpCatCount perCat (dedupeCat ch)) (outLen + 1) h2
            simp only [List.length_cons]
            omega

/-- Per-category bound for the dedupe loop, with truncated subtraction:
once a category counter passes `max_per_category`, no further change of
that category is ever emitted. -/
theorem dedupeAux_countP (mt mpc : Nat) :
    ∀ (l : List Change) (seen : List String) (perCat : String → Nat) (outLen : Nat)
      (c : String),
      (dedupeAux mt mpc seen perCat outLen l).countP (fun ch => dedupeCat ch = c) ≤
        mpc - perCat c := by
  intro l
  induction l with
  | nil => intro seen perCat outLen c; simp [dedupeAux]
  | cons ch rest ih =>
    intro seen perCat outLen c
    rw [dedupeAux]
    split
    · exact ih _ _ _ _
    · split
      · exact ih _ _ _ _
      · split
        · rename_i hskip hseen hover
          have h3 := ih (change_signature ch :: seen)
            (bumpCatCount perCat (dedupeCat ch)) outLen c
          by_cases hc : c = dedupeCat ch
          · subst hc
            simp [bumpCatCount] at h3
            omega
          · simpa only [bumpCatCount, if_neg hc] using h3
        · split
          · rename_i hskip hseen hover hbreak
            by_cases hc : dedupeCat ch = c
            · subst hc
              simp [List.countP_cons]
              omega
            · simp [List.countP_cons, hc]
          · rename_i hskip hseen hover hbreak
            have h3 := ih (change_signature ch :: seen)
              (bumpCatCount perCat (dedupeCat ch)) (outLen + 1) c
            by_cases hc : dedupeCat ch = c
            · subst hc
              simp [bumpCatCount] at h3
              simp [List.countP_cons]
              omega
            · have hc2 : c ≠ dedupeCat ch := fun hh => hc hh.symm
              simp only [bumpCatCount, if_neg hc2] at h3
              have h4 : (decide (dedupeCat ch = c)) = false := by simp [hc]
              simp only [List.countP_cons, h4, cond_false]
              exact h3

/-- Cap corollary at the engine's arguments: at most 25 changes overall,
at most 6 per (normalised) category. -/
theorem dedupe_and_trim_caps (changes : List Change) :
    (dedupe_and_trim_changes changes 25 6).length ≤ 25 ∧
      ∀ c : String,
        (dedupe_and_trim_changes changes 25 6).countP (fun ch => dedupeCat ch = c) ≤ 6 := by
  constructor
  · simpa using dedupeAux_length 25 6 changes [] (fun _ => 0) 0 (by omega)
  · intro c
    simpa using dedupeAux_countP 25 6 changes [] (fun _ => 0) 0 c

/-- Membership corollary: the trimmed list only contains input changes. -/
theorem dedupe_and_trim_sublist (changes : List Change) (mt mpc : Nat) :
    List.Sublist (dedupe_and_trim_changes changes mt mpc) changes :=
  dedupeAux_sublist mt mpc changes [] (fun _ => 0) 0

end ConsentCore

namespace ConsentCore

/-! ### Properties of `argmaxFirst` and the aligner -/

theorem argmaxFirst_lt (f : Nat → ℚ) : ∀ n, 0 < n → argmaxFirst f n < n := by
  intro n
  induction n with
  | zero => intro h; omega
  | succ n ih =>
    intro _
    rw [argmaxFirst]
    split
    · omega
    · rcases Nat.eq_zero_or_pos n with h | h
      · subst h
        simp [argmaxFirst]
      · exact Nat.lt_succ_of_lt (ih h)

theorem argmaxFirst_le (f : Nat → ℚ) : ∀ n j, j < n → f j ≤ f (argmaxFirst f n) := by
  intro n
  induction n with
  | zero => intro j h; omega
  | succ n ih =>
    intro j hj
    rw [argmaxFirst]
    rcases Nat.lt_succ_iff_lt_or_eq.1 hj with h | h
    · split
      · rename_i hlt
        exact le_of_lt (lt_of_le_of_lt (ih j h) hlt)
      · exact ih j h
    · subst h
      split
      · exact le_refl _
      · rename_i hlt
        exact le_of_not_lt hlt

/-- If `f` attains a strict maximum at `i`, the first-occurrence argmax is
`i`. -/
theorem argmaxFirst_eq_self (f : Nat → ℚ) (n i : Nat) (hi : i < n)
    (h : ∀ j, j < n → j ≠ i → f j < f i) : argmaxFirst f n = i := by
  by_contra hne
  have h1 : argmaxFirst f n < n := argmaxFirst_lt f n (by omega)
  have h2 : f i ≤ f (argmaxFirst f n) := argmaxFirst_le f n i hi
  have h3 : f (argmaxFirst f n) < f i := h _ h1 hne
  exact absurd h2 (not_le_of_lt h3)

/-- The per-row alignments never carry kind "added". -/
theorem alignOldRow_atype_ne_added (sim : Nat → Nat → ℚ)
    (old_sentences new_sentences : List String) (ts ta : ℚ) (i : Nat) :
    (alignOldRow sim old_sentences new_sentences ts ta i).atype ≠ "added" := by
  simp only [alignOldRow]
  split
  · split <;> simp
  · split <;> simp

/-- Element `i < n_old` of the alignment list is the row alignment for `i`. -/
theorem align_getElem_row (sim : Nat → Nat → ℚ)
    (old_sentences new_sentences : List String) (ts ta : ℚ) (i : Nat)
    (hi : i < old_sentences.length) :
    (align_sentences_semantic sim old_sentences new_sentences ts ta).getD i default =
      alignOldRow sim old_sentences new_sentences ts ta i := by
  simp only [align_sentences_semantic]
  rw [List.getD_eq_getElem?_getD]
  rw [List.getElem?_append, if_pos (by simpa using hi)]
  rw [List.getElem?_map]
  simp [List.getElem?_range hi]

/-- Count of "added" alignments targeting new-sentence index `j`: zero when
`j` was consumed, exactly one otherwise. -/
theorem align_added_count (sim : Nat → Nat → ℚ)
    (old_sentences new_sentences : List String) (ts ta : ℚ) (j : Nat)
    (hj : j < new_sentences.length) :
    ((align_sentences_semantic sim old_sentences new_sentences ts ta).countP
        (fun al => al.atype = "added" ∧ al.new_index = some j)) =
      if j ∈ alignMatched sim old_sentences.length new_sentences.length ts ta then 0
      else 1 := by
  simp only [align_sentences_semantic]
  rw [List.countP_append]
  have h1 : (List.countP (fun al => decide (al.atype = "added" ∧ al.new_index = some j))
      ((List.range old_sentences.length).map
        (alignOldRow sim old_sentences new_sentences ts ta))) = 0 := by
    rw [List.countP_eq_zero]
    intro al hal
    rcases List.mem_map.1 hal with ⟨i, _, rfl⟩
    simp only [decide_eq_true_eq, not_and]
    intro hadded
    exact absurd hadded (alignOldRow_atype_ne_added sim old_sentences new_sentences ts ta i)
  rw [h1]
  rw [List.countP_map]
  have h2 : ∀ j' ∈ (List.range new_sentences.length).filter
      (fun j' => j' ∉ alignMatched sim old_sentences.length new_sentences.length ts ta),
      (((fun al => decide (al.atype = "added" ∧ al.new_index = some j)) ∘
          alignAdded new_sentences) j' = true ↔ (j' == j) = true) := by
    intro j' _
    simp [alignAdded, Function.comp]
  rw [List.countP_congr h2]
  have h3 : (List.countP (fun j' => j' == j)
      ((List.range new_sentences.length).filter
        (fun j' => j' ∉ alignMatched sim old_sentences.length new_sentences.length ts ta))) =
      List.count j ((List.range new_sentences.length).filter
        (fun j' => j' ∉ alignMatched sim old_sentences.length new_sentences.length ts ta)) := by
    rw [List.count]
  rw [h3, Nat.zero_add]
  by_cases hmem : j ∈ alignMatched sim old_sentences.length new_sentences.length ts ta
  · rw [if_pos hmem]
    apply List.count_eq_zero_of_not_mem
    intro hc
    rcases List.mem_filter.1 hc with ⟨_, hp⟩
    simp only [decide_eq_true_eq] at hp
    exact hp hmem
  · rw [if_neg hmem]
    apply List.count_eq_one_of_mem ((List.nodup_range _).filter _)
    exact List.mem_filter.2 ⟨List.mem_range.2 hj, by simpa using hmem⟩

end ConsentCore

namespace ConsentCore

/-- Nonempty strings have nonempty character data. -/
theorem data_isEmpty_eq_false {s : String} (h : s ≠ "") : s.data.isEmpty = false := by
  rcases s with ⟨data⟩
  cases data with
  | nil => exact absurd rfl h
  | cons c cs => rfl

/-- For nonempty sentences, triviality is exactly "similarity at least 0.98
or equal normalized forms". -/
theorem is_trivial_change_iff (old new : String) (s : ℚ)
    (ho : old ≠ "") (hn : new ≠ "") :
    is_trivial_change old new s = true ↔
      ((98 : ℚ)/100 ≤ s ∨ normalize_trivial old = normalize_trivial new) := by
  unfold is_trivial_change
  rw [data_isEmpty_eq_false ho, data_isEmpty_eq_false hn]
  simp only [Bool.or_self, Bool.false_eq_true, if_false]
  split_ifs with h1 h2 <;> simp_all

end ConsentCore

namespace ConsentCore

/-- C1: In the semantic aligner (at the engine's thresholds 0.85/0.60), for
every old sentence `i` with best-matching new sentence `j*` at similarity
`s`: if `s ≥ 0.85` the kind is "unchanged" exactly when the sentences are
textually identical or the change is trivial (`s ≥ 0.98` or equal
punctuation/case/quote-normalized forms), else "modified"; if
`0.60 ≤ s < 0.85` the kind is "modified"; if `s < 0.60` the kind is
"removed" with null new index and text; every never-consumed new index
yields exactly one "added" alignment, and added alignments carry null old
fields and null similarity.  (Sentences are nonempty in the semantic
pipeline, which the two nonemptiness hypotheses record.) -/
theorem claim_C1_alignment_phase (sim : Nat → Nat → ℚ)
    (old_sentences new_sentences : List String) (i : Nat)
    (hi : i < old_sentences.length)
    (hold : old_sentences.getD i "" ≠ "")
    (hnew : new_sentences.getD (alignBestJ sim new_sentences.length i) "" ≠ "") :
    ((85 : ℚ)/100 ≤ alignBestScore sim new_sentences.length i →
      ((align_sentences_semantic sim old_sentences new_sentences (85/100) (60/100)).getD i
          default).atype =
        (if old_sentences.getD i "" =
              new_sentences.getD (alignBestJ sim new_sentences.length i) "" ∨
            (98 : ℚ)/100 ≤ alignBestScore sim new_sentences.length i ∨
            normalize_trivial (old_sentences.getD i "") =
              normalize_trivial (new_sentences.getD (alignBestJ sim new_sentences.length i) "")
          then "unchanged" else "modified")) ∧
    ((60 : ℚ)/100 ≤ alignBestScore sim new_sentences.length i →
      alignBestScore sim new_sentences.length i < (85 : ℚ)/100 →
      ((align_sentences_semantic sim old_sentences new_sentences (85/100) (60/100)).getD i
          default).atype = "modified") ∧
    (alignBestScore sim new_sentences.length i < (60 : ℚ)/100 →
      ((align_sentences_semantic sim old_sentences new_sentences (85/100) (60/100)).getD i
            default).atype = "removed" ∧
        ((align_sentences_semantic sim old_sentences new_sentences (85/100) (60/100)).getD i
            default).new_index = none ∧
        ((align_sentences_semantic sim old_sentences new_sentences (85/100) (60/100)).getD i
            default).new = none) ∧
    (∀ j, j < new_sentences.length →
      ((align_sentences_semantic sim old_sentences new_sentences (85/100) (60/100)).countP
          (fun al => al.atype = "added" ∧ al.new_index = some j)) =
        (if j ∈ alignMatched sim old_sentences.length new_sentences.length (85/100) (60/100)
          then 0 else 1)) ∧
    (∀ al ∈ align_sentences_semantic sim old_sentences new_sentences (85/100) (60/100),
      al.atype = "added" →
        al.old_index = none ∧ al.old = none ∧ al.similarity = none) := by
  rw [align_getElem_row sim old_sentences new_sentences (85/100) (60/100) i hi]
  refine ⟨?_, ?_, ?_, ?_, ?_⟩
  · intro h85
    simp only [alignOldRow]
    rw [if_pos h85]
    rcases Classical.em (old_sentences.getD i "" =
        new_sentences.getD (alignBestJ sim new_sentences.length i) "") with he | he
    · rw [if_pos (Or.inl he), if_pos (Or.inl he)]
    · by_cases ht : is_trivial_change (old_sentences.getD i "")
          (new_sentences.getD (alignBestJ sim new_sentences.length i) "")
          (alignBestScore sim new_sentences.length i) = true
      · rw [if_pos (Or.inr ht),
          if_pos (Or.inr ((is_trivial_change_iff _ _ _ hold hnew).1 ht))]
      · rw [if_neg (by tauto), if_neg ?_]
        intro hcontra
        rcases hcontra with he2 | hrest
        · exact he he2
        · exact ht ((is_trivial_change_iff _ _ _ hold hnew).2 hrest)
  · intro h60 h85
    simp only [alignOldRow]
    rw [if_neg (not_le_of_lt h85), if_pos h60]
  · intro h60
    simp only [alignOldRow]
    rw [if_neg (not_le_of_lt (lt_trans h60 (by norm_num))),
      if_neg (not_le_of_lt h60)]
    exact ⟨rfl, rfl, rfl⟩
  · intro j hj
    exact align_added_count sim old_sentences new_sentences (85/100) (60/100) j hj
  · intro al hal hadded
    simp only [align_sentences_semantic, List.mem_append] at hal
    rcases hal with hal | hal
    · rcases List.mem_map.1 hal with ⟨i2, _, rfl⟩
      exact absurd hadded
        (alignOldRow_atype_ne_added sim old_sentences new_sentences (85/100) (60/100) i2)
    · rcases List.mem_map.1 hal with ⟨j2, _, rfl⟩
      exact ⟨rfl, rfl, rfl⟩

end ConsentCore

namespace ConsentCore

/-- C6: the basic-mode scenario: one collected-data sentence gains "phone
number"; the engine reports exactly one change, categorised as data
collection expansion, and the explanation names "phone number". -/
theorem claim_C6_basic_scenario :
    (analyze_policy_change_basic "We collect your email address."
        "We collect your email address and phone number.").length = 1 ∧
    ((analyze_policy_change_basic "We collect your email address."
        "We collect your email address and phone number.").getD 0 default).category =
      "Data collection expanded" ∧
    strContains "phone number"
      ((analyze_policy_change_basic "We collect your email address."
          "We collect your email address and phone number.").getD 0 default).explanation =
      true := by
  refine ⟨?_, ?_, ?_⟩ <;> with_unfolding_all decide

/-- A pointwise-weaker predicate counts no more often. -/
theorem countP_le_of_imp {α : Type} (p q : α → Bool) (l : List α)
    (h : ∀ a ∈ l, p a = true → q a = true) : l.countP p ≤ l.countP q := by
  induction l with
  | nil => simp
  | cons a l ih =>
    have ih2 := ih (fun a ha hp => h a (List.mem_cons_of_mem _ ha) hp)
    by_cases hp : p a = true
    · have hq := h a (List.mem_cons_self _ _) hp
      simp [List.countP_cons, hp, hq]
      omega
    · simp only [List.countP_cons]
      have hp2 : p a = false := by revert hp; cases p a <;> simp
      simp only [hp2, cond_false]
      by_cases hq : q a = true
      · simp [hq]; omega
      · have hq2 : q a = false := by revert hq; cases q a <;> simp
        simp [hq2]; omega

/-- C2 (amended): in semantic mode the engine output is capped at 25
changes overall and 6 per category.  (Basic mode applies no caps; see the
counterexample.) -/
theorem claim_C2_caps_semantic (sim : Nat → Nat → ℚ) (old_text new_text : String) :
    (analyze_policy_change_semantic sim old_text new_text).length ≤ 25 ∧
      ∀ c : String,
        (analyze_policy_change_semantic sim old_text new_text).countP
            (fun ch => ch.category = c) ≤ 6 := by
  simp only [analyze_policy_change_semantic]
  split
  · simp
  · split
    · simp
    · constructor
      · exact (dedupe_and_trim_caps (semanticSorted sim old_text new_text)).1
      · intro c
        have h1 := (dedupe_and_trim_caps (semanticSorted sim old_text new_text)).2
          (stripStr (if c = "" then "Other policy change" else c))
        refine le_trans (countP_le_of_imp _ _ _ ?_) h1
        intro ch _ hp
        simp only [decide_eq_true_eq] at hp ⊢
        rw [dedupeCat, hp]

/-- C2 counterexample: in basic mode, seven differing lines all fall into
the category "Other policy change", so the per-category cap of 6 (and the
claim that it holds for both classifier modes) fails. -/
theorem claim_C2_counterexample :
    ¬ ((analyze_policy_change_basic
          "clause one\nclause two\nclause three\nclause four\nclause five\nclause six\nclause seven"
          "update one\nupdate two\nupdate three\nupdate four\nupdate five\nupdate six\nupdate seven").countP
        (fun ch => ch.category = "Other policy change") ≤ 6) := by
  with_unfolding_all decide

end ConsentCore

namespace ConsentCore

/-- C3 counterexample: a semantic run producing two changes tied at risk
2.7 — an added "User rights & controls" change and an added "Data
retention & storage" change, enriched in the opposite order.  The engine's
`sorted(key=(risk_score, category), reverse=True)` reverses the category
tie-break as well, so the tied pair comes out with categories in
descending order, refuting the claimed ascending tie-break. -/
theorem claim_C3_counterexample :
    ((analyze_policy_change_semantic (fun _ j => if j = 0 then 1 else 1/10)
        "we collect your email address and keep it safe always"
        "we collect your email address and keep it safe always\nwe retain your data for twelve months after you close your account\nyou can opt out of marketing messages at any time").map
      (fun c => c.category)) =
      ["User rights & controls", "Data retention & storage"] ∧
    ((analyze_policy_change_semantic (fun _ j => if j = 0 then 1 else 1/10)
        "we collect your email address and keep it safe always"
        "we collect your email address and keep it safe always\nwe retain your data for twelve months after you close your account\nyou can opt out of marketing messages at any time").getD 0
        default).risk_score =
      ((analyze_policy_change_semantic (fun _ j => if j = 0 then 1 else 1/10)
        "we collect your email address and keep it safe always"
        "we collect your email address and keep it safe always\nwe retain your data for twelve months after you close your account\nyou can opt out of marketing messages at any time").getD 1
        default).risk_score ∧
    ((analyze_policy_change_semantic (fun _ j => if j = 0 then 1 else 1/10)
        "we collect your email address and keep it safe always"
        "we collect your email address and keep it safe always\nwe retain your data for twelve months after you close your account\nyou can opt out of marketing messages at any time").getD 1
        default).category <
      ((analyze_policy_change_semantic (fun _ j => if j = 0 then 1 else 1/10)
        "we collect your email address and keep it safe always"
        "we collect your email address and keep it safe always\nwe retain your data for twelve months after you close your account\nyou can opt out of marketing messages at any time").getD 0
        default).category := by
  refine ⟨?_, ?_, ?_⟩ <;> with_unfolding_all decide

/-- C3 (amended): the semantic pipeline sorts the enriched changes by
risk_score descending with ties broken by category name DESCENDING (the
`reverse=True` flips the category component too), and the final output is
an order-preserving selection (sublist) of that sorted list, hence itself
so ordered. -/
theorem claim_C3_sort_order (sim : Nat → Nat → ℚ) (old_text new_text : String) :
    List.Pairwise (fun a b : Change =>
        b.risk_score < a.risk_score ∨
          (a.risk_score = b.risk_score ∧
            (b.category < a.category ∨ a.category = b.category)))
      (semanticSorted sim old_text new_text) ∧
    List.Sublist (analyze_policy_change_semantic sim old_text new_text)
      (semanticSorted sim old_text new_text) ∧
    List.Pairwise (fun a b : Change =>
        b.risk_score < a.risk_score ∨
          (a.risk_score = b.risk_score ∧
            (b.category < a.category ∨ a.category = b.category)))
      (analyze_policy_change_semantic sim old_text new_text) := by
  have h1 := pySortDesc_pairwise (fun ch : Change => (ch.risk_score, ch.category))
    (semanticEnriched sim old_text new_text)
  have h2 : List.Sublist (analyze_policy_change_semantic sim old_text new_text)
      (semanticSorted sim old_text new_text) := by
    simp only [analyze_policy_change_semantic]
    split
    · exact List.nil_sublist _
    · split
      · exact List.nil_sublist _
      · exact dedupe_and_trim_sublist _ 25 6
  exact ⟨h1, h2, List.Pairwise.sublist h2 h1⟩

end ConsentCore

namespace ConsentCore

/-- Unchanged alignments are skipped by the enrichment loop. -/
theorem enrichSemantic_unchanged (a : Alignment) (h : a.atype = "unchanged") :
    enrichSemantic a = none := by
  simp only [enrichSemantic]
  rw [if_pos h]

/-- C4 (amended): comparing a text against itself yields no changes
provided every retained sentence has self-similarity 1 and strictly
smaller similarity to every other retained sentence (as an embedding model
gives whenever the retained sentences are pairwise distinct).  With
duplicated sentences the all-ones similarity matrix breaks this hypothesis
and the duplicate resurfaces as an "added" change — see the
counterexample. -/
theorem claim_C4_idempotent (sim : Nat → Nat → ℚ) (text : String)
    (hdiag : ∀ i, i < (semanticSentences text).length → sim i i = 1)
    (hstrict : ∀ i, i < (semanticSentences text).length →
      ∀ j, j < (semanticSentences text).length → j ≠ i → sim i j < sim i i) :
    analyze_policy_change_semantic sim text text = [] := by
  have hbestJ : ∀ i, i < (semanticSentences text).length →
      alignBestJ sim (semanticSentences text).length i = i := by
    intro i hi
    exact argmaxFirst_eq_self (sim i) _ i hi (fun j hj hne => hstrict i hi j hj hne)
  have hscore : ∀ i, i < (semanticSentences text).length →
      alignBestScore sim (semanticSentences text).length i = 1 := by
    intro i hi
    unfold alignBestScore
    rw [hbestJ i hi]
    exact hdiag i hi
  have hrow : ∀ i, i < (semanticSentences text).length →
      (alignOldRow sim (semanticSentences text) (semanticSentences text)
          (85/100) (60/100) i).atype = "unchanged" := by
    intro i hi
    simp only [alignOldRow]
    rw [if_pos (by rw [hscore i hi]; norm_num)]
    rw [if_pos (Or.inl (by rw [hbestJ i hi]))]
  have henriched : semanticEnriched sim text text = [] := by
    unfold semanticEnriched
    simp only [align_sentences_semantic]
    rw [List.filterMap_append]
    have hpart1 : ((List.range (semanticSentences text).length).map
        (alignOldRow sim (semanticSentences text) (semanticSentences text)
          (85/100) (60/100))).filterMap enrichSemantic = [] := by
      rw [List.filterMap_map, List.filterMap_eq_nil_iff]
      intro i hi
      exact enrichSemantic_unchanged _ (hrow i (List.mem_range.1 hi))
    have hpart2 : ((List.range (semanticSentences text).length).filter
        (fun j => j ∉ alignMatched sim (semanticSentences text).length
          (semanticSentences text).length (85/100) (60/100))) = [] := by
      rw [List.filter_eq_nil_iff]
      intro j hj
      simp only [decide_eq_true_eq, not_not]
      unfold alignMatched
      apply List.mem_filterMap.2
      refine ⟨j, hj, ?_⟩
      rw [if_pos (Or.inl (by rw [hscore j (List.mem_range.1 hj)]; norm_num))]
      rw [hbestJ j (List.mem_range.1 hj)]
    rw [hpart1, hpart2]
    simp
  simp only [analyze_policy_change_semantic]
  split
  · rfl
  · rw [if_pos (by rw [henriched]; rfl)]

/-- C4 counterexample: with a duplicated substantive sentence, comparing
the text against itself is not idempotent.  Both copies of the sentence
have identical embeddings, so the model's cosine-similarity matrix is
all ones; both old copies then align to new index 0, new index 1 is never
consumed, and the second copy is reported as an "added"
"Data collection expanded" change. -/
theorem claim_C4_counterexample :
    analyze_policy_change_semantic (fun _ _ => (1 : ℚ))
        "we collect your phone number and email address always\nwe collect your phone number and email address always"
        "we collect your phone number and email address always\nwe collect your phone number and email address always" ≠
      [] := by
  with_unfolding_all decide

/-- C4 witness: a two-sentence text with distinct sentences and a
similarity matrix that is 1 on the diagonal and 1/2 off it satisfies the
amended idempotence hypotheses, and the comparison of the text against
itself is empty. -/
theorem claim_C4_witness :
    ((∀ i, i < (semanticSentences "we collect your email address from you today\nyou can opt out of marketing messages at any time").length →
        (fun i2 j2 : Nat => if i2 = j2 then (1 : ℚ) else 1/2) i i = 1) ∧
      (∀ i, i < (semanticSentences "we collect your email address from you today\nyou can opt out of marketing messages at any time").length →
        ∀ j, j < (semanticSentences "we collect your email address from you today\nyou can opt out of marketing messages at any time").length →
        j ≠ i →
        (fun i2 j2 : Nat => if i2 = j2 then (1 : ℚ) else 1/2) i j <
          (fun i2 j2 : Nat => if i2 = j2 then (1 : ℚ) else 1/2) i i)) ∧
    analyze_policy_change_semantic (fun i2 j2 : Nat => if i2 = j2 then (1 : ℚ) else 1/2)
        "we collect your email address from you today\nyou can opt out of marketing messages at any time"
        "we collect your email address from you today\nyou can opt out of marketing messages at any time" =
      [] :=
  ⟨⟨by with_unfolding_all decide, by with_unfolding_all decide⟩,
    claim_C4_idempotent _ _ (by with_unfolding_all decide) (by with_unfolding_all decide)⟩

end ConsentCore

namespace ConsentCore

/-! ### Blank inputs (claim C5) -/

theorem mem_takeWhile_ws {cs : List Char} {c : Char}
    (h : c ∈ cs.takeWhile isWs) : isWs c = true :=
  List.mem_takeWhile_imp h

/-- An empty strip means every character is whitespace. -/
theorem all_ws_of_stripChars_eq_nil {cs : List Char} (h : stripChars cs = []) :
    ∀ c ∈ cs, isWs c = true := by
  unfold stripChars at h
  rw [List.reverse_eq_nil_iff, List.dropWhile_eq_nil_iff] at h
  intro c hc
  rw [← List.takeWhile_append_dropWhile (p := isWs) (l := cs)] at hc
  rcases List.mem_append.1 hc with hc2 | hc2
  · exact List.mem_takeWhile_imp hc2
  · exact h c (List.mem_reverse.2 hc2)

end ConsentCore

namespace ConsentCore

/-- All-whitespace character lists strip to nothing. -/
theorem stripChars_eq_nil_of_all_ws {cs : List Char} (h : ∀ c ∈ cs, isWs c = true) :
    stripChars cs = [] := by
  unfold stripChars
  have h1 : cs.dropWhile isWs = [] := List.dropWhile_eq_nil_iff.2 h
  rw [h1]
  rfl

/-- Equation lemma: a carriage return followed by a non-newline character. -/
theorem splitlinesAux_r_cons (acc : List Char) (c1 : Char) (rest1 : List Char)
    (h : c1 ≠ '\n') :
    splitlinesAux acc ('\r' :: c1 :: rest1) =
      acc.reverse ::
        (if (c1 :: rest1).isEmpty then [] else splitlinesAux [] (c1 :: rest1)) := by
  rw [splitlinesAux]
  intro r hr
  exact absurd (List.head_eq_of_cons_eq hr) h

/-- Equation lemma: a final carriage return. -/
theorem splitlinesAux_r_nil (acc : List Char) :
    splitlinesAux acc ['\r'] = [acc.reverse] := by
  rw [splitlinesAux]
  · rfl
  · intro r hr
    exact absurd hr (by simp)

/-- Equation lemma: an ordinary character is accumulated. -/
theorem splitlinesAux_other (acc : List Char) (c0 : Char) (rest : List Char)
    (h1 : c0 ≠ '\n') (h2 : c0 ≠ '\r') :
    splitlinesAux acc (c0 :: rest) = splitlinesAux (c0 :: acc) rest := by
  rw [splitlinesAux]
  · intro r hc hr
    exact h2 hc
  · intro hc
    exact h1 hc
  · intro hc
    exact h2 hc

/-- Every line produced by `splitlinesAux` from whitespace-only input (and
whitespace-only accumulator) is whitespace-only. -/
theorem splitlinesAux_all_ws :
    ∀ (n : Nat) (cs acc : List Char), cs.length ≤ n →
      (∀ c ∈ cs, isWs c = true) → (∀ c ∈ acc, isWs c = true) →
      ∀ line ∈ splitlinesAux acc cs, ∀ c ∈ line, isWs c = true := by
  intro n
  induction n with
  | zero =>
    intro cs acc hlen hcs hacc line hline
    have : cs = [] := List.length_eq_zero.1 (Nat.le_zero.1 hlen)
    subst this
    simp only [splitlinesAux, List.mem_singleton] at hline
    subst hline
    intro c hc
    exact hacc c (List.mem_reverse.1 hc)
  | succ n ih =>
    intro cs acc hlen hcs hacc line hline
    rcases cs with _ | ⟨c0, rest⟩
    · simp only [splitlinesAux, List.mem_singleton] at hline
      subst hline
      intro c hc
      exact hacc c (List.mem_reverse.1 hc)
    · have hrest : ∀ c ∈ rest, isWs c = true := fun c hc => hcs c (by simp [hc])
      by_cases hc0n : c0 = '\n'
      · subst hc0n
        rw [splitlinesAux] at hline
        rcases List.mem_cons.1 hline with hline | hline
        · subst hline
          intro c hc
          exact hacc c (List.mem_reverse.1 hc)
        · split at hline
          · simp at hline
          · exact ih rest [] (by simp at hlen; omega) hrest (by simp) line hline
      · by_cases hc0r : c0 = '\r'
        · subst hc0r
          rcases rest with _ | ⟨c1, rest1⟩
          · rw [splitlinesAux_r_nil] at hline
            simp only [List.mem_singleton] at hline
            subst hline
            intro c hc
            exact hacc c (List.mem_reverse.1 hc)
          · have hrest1 : ∀ c ∈ c1 :: rest1, isWs c = true := hrest
            by_cases hc1 : c1 = '\n'
            · subst hc1
              rw [splitlinesAux] at hline
              rcases List.mem_cons.1 hline with hline | hline
              · subst hline
                intro c hc
                exact hacc c (List.mem_reverse.1 hc)
              · split at hline
                · simp at hline
                · exact ih rest1 [] (by simp at hlen; omega)
                    (fun c hc => hrest1 c (by simp [hc])) (by simp) line hline
            · rw [splitlinesAux_r_cons _ _ _ hc1] at hline
              rcases List.mem_cons.1 hline with hline | hline
              · subst hline
                intro c hc
                exact hacc c (List.mem_reverse.1 hc)
              · split at hline
                · simp at hline
                · exact ih (c1 :: rest1) [] (by simp at hlen ⊢; omega) hrest1
                    (by simp) line hline
        · rw [splitlinesAux_other _ _ _ hc0n hc0r] at hline
          exact ih rest (c0 :: acc) (by simp at hlen; omega) hrest
            (by
              intro c hc
              rcases List.mem_cons.1 hc with hc | hc
              · subst hc; exact hcs c (by simp)
              · exact hacc c hc)
            line hline

end ConsentCore

namespace ConsentCore

/-- A text that is blank after trimming splits into no sentences. -/
theorem split_into_sentences_blank {s : String} (h : stripStr s = "") :
    split_into_sentences s = [] := by
  have hws : ∀ c ∈ s.data, isWs c = true := by
    apply all_ws_of_stripChars_eq_nil
    have := congrArg String.data h
    exact this
  unfold split_into_sentences
  rw [List.filter_eq_nil_iff]
  intro t ht
  rcases List.mem_map.1 ht with ⟨line, hline, rfl⟩
  unfold splitlinesPy at hline
  split at hline
  · simp at hline
  · rcases List.mem_map.1 hline with ⟨cs, hcs, rfl⟩
    have hcsws : ∀ c ∈ cs, isWs c = true :=
      splitlinesAux_all_ws s.data.length s.data [] le_rfl hws (by simp) cs hcs
    have : stripStr ⟨cs⟩ = "" := by
      unfold stripStr
      rw [stripChars_eq_nil_of_all_ws hcsws]
    simp [this]

/-- A text that is blank after trimming contributes no semantic sentences. -/
theorem semanticSentences_blank {s : String} (h : stripStr s = "") :
    semanticSentences s = [] := by
  unfold semanticSentences
  rw [split_into_sentences_blank h]
  rfl

/-- C5: if either input is blank after trimming, the engine returns an
empty change list in both modes (the API guard), and the semantic core
itself already returns an empty list; no error is raised (the model is a
total function). -/
theorem claim_C5_blank_inputs (mode : String) (sim : Nat → Nat → ℚ)
    (old_text new_text : String) (max_changes : Nat)
    (h : stripStr old_text = "" ∨ stripStr new_text = "") :
    ConsentApi.run_engine_changes mode sim old_text new_text max_changes = [] ∧
      analyze_policy_change_semantic sim old_text new_text = [] := by
  constructor
  · simp only [ConsentApi.run_engine_changes]
    have hcond : (stripStr old_text).data.isEmpty = true ∨
        (stripStr new_text).data.isEmpty = true := by
      rcases h with h | h
      · left; rw [h]; rfl
      · right; rw [h]; rfl
    rw [if_pos hcond]
  · simp only [analyze_policy_change_semantic]
    have hcond : (semanticSentences old_text).isEmpty = true ∨
        (semanticSentences new_text).isEmpty = true := by
      rcases h with h | h
      · left; rw [semanticSentences_blank h]; rfl
      · right; rw [semanticSentences_blank h]; rfl
    rw [if_pos hcond]

/-- C5 witness: a whitespace-only old text and nonempty new text in basic
mode produce no changes. -/
theorem claim_C5_blank_inputs_witness :
    (stripStr "  " = "" ∨ stripStr "We collect data." = "") ∧
      ConsentApi.run_engine_changes "basic" (fun _ _ => (1 : ℚ)) "  " "We collect data." 50 = [] ∧
      analyze_policy_change_semantic (fun _ _ => (1 : ℚ)) "  " "We collect data." = [] :=
  ⟨Or.inl (by decide),
    (claim_C5_blank_inputs "basic" (fun _ _ => (1 : ℚ)) "  " "We collect data." 50
      (Or.inl (by decide))).1,
    (claim_C5_blank_inputs "basic" (fun _ _ => (1 : ℚ)) "  " "We collect data." 50
      (Or.inl (by decide))).2⟩

end ConsentCore

namespace ConsentCore

/-- C1 witness: a one-sentence alignment against an identical sentence at
similarity 1 is classified "unchanged". -/
theorem claim_C1_alignment_phase_witness :
    (0 < (["we collect data"] : List String).length ∧
      (["we collect data"] : List String).getD 0 "" ≠ "" ∧
      (["we collect data"] : List String).getD
          (alignBestJ (fun _ _ => (1 : ℚ)) 1 0) "" ≠ "") ∧
    ((align_sentences_semantic (fun _ _ => (1 : ℚ)) ["we collect data"]
        ["we collect data"] (85/100) (60/100)).getD 0 default).atype = "unchanged" := by
  have h := claim_C1_alignment_phase (fun _ _ => (1 : ℚ)) ["we collect data"]
    ["we collect data"] 0 (by decide) (by decide) (by with_unfolding_all decide)
  refine ⟨⟨by decide, by decide, by with_unfolding_all decide⟩, ?_⟩
  have h2 := h.1 (by with_unfolding_all decide)
  rw [h2, if_pos]
  left
  with_unfolding_all decide

/-- C7: risk-score monotonicity and additivity of the content bump.  For
any fixed classification `meta` and any two texts agreeing on the first
two trigger groups where only the first triggers the sale/profiling group,
the risk score `base + bump` of the first is at least that of the second;
and the bump decomposes additively into the three independent groups
(+0.5 advertising/third-party/broker, +0.5 cross-affiliate combination,
+0.7 sale/profiling/inference). -/
theorem claim_C7_bump_monotonic (meta : Meta) (t u : String)
    (h1 : bumpAdsTrigger t = bumpAdsTrigger u)
    (h2 : bumpCombineTrigger t = bumpCombineTrigger u)
    (h3 : bumpSellTrigger t = true) (h4 : bumpSellTrigger u = false) :
    (estimate_risk meta + content_risk_bump u ≤
      estimate_risk meta + content_risk_bump t) ∧
    ∀ v : String, content_risk_bump v =
      (if bumpAdsTrigger v then (1 : ℚ)/2 else 0) +
        (if bumpCombineTrigger v then (1 : ℚ)/2 else 0) +
        (if bumpSellTrigger v then (7 : ℚ)/10 else 0) := by
  have hadd : ∀ v : String, content_risk_bump v =
      (if bumpAdsTrigger v then (1 : ℚ)/2 else 0) +
        (if bumpCombineTrigger v then (1 : ℚ)/2 else 0) +
        (if bumpSellTrigger v then (7 : ℚ)/10 else 0) := by
    intro v
    unfold content_risk_bump
    split_ifs <;> ring
  refine ⟨?_, hadd⟩
  rw [hadd t, hadd u, h1, h2, h3, h4]
  simp
  have : (0 : ℚ) ≤ 7/10 := by norm_num
  linarith

/-- C7 witness: "they sell data" triggers the sale group, "they keep data"
triggers nothing; with the generic fallback classification the first
scores at least the second, and the bump is additive. -/
theorem claim_C7_bump_monotonic_witness :
    (bumpAdsTrigger "they sell data" = bumpAdsTrigger "they keep data" ∧
      bumpCombineTrigger "they sell data" = bumpCombineTrigger "they keep data" ∧
      bumpSellTrigger "they sell data" = true ∧
      bumpSellTrigger "they keep data" = false) ∧
    (estimate_risk (classify_change "x" "y") + content_risk_bump "they keep data" ≤
      estimate_risk (classify_change "x" "y") + content_risk_bump "they sell data") :=
  ⟨⟨by decide, by decide, by decide, by decide⟩,
    (claim_C7_bump_monotonic (classify_change "x" "y") "they sell data" "they keep data"
      (by decide) (by decide) (by decide) (by decide)).1⟩

end ConsentCore

namespace ConsentCore

/-! ### Basic-mode positional comparison (claim C9) -/

/-- Zipping a list against itself extended pairs each element with itself. -/
theorem zip_append_self {α : Type} : ∀ (l t : List α), l.zip (l ++ t) = l.zip l
  | [], _ => rfl
  | a :: l, t => by
    simp only [List.cons_append, List.zip_cons_cons]
    rw [zip_append_self l t]

theorem zip_self_map {α : Type} : ∀ l : List α, l.zip l = l.map (fun x => (x, x))
  | [] => rfl
  | a :: l => by
    simp only [List.zip_cons_cons, List.map_cons]
    rw [zip_self_map l]

/-- `find_line_changes` against a document extending the old one line for
line reports nothing. -/
theorem find_line_changes_append (l t : List String) :
    find_line_changes l (l ++ t) = [] := by
  unfold find_line_changes
  rw [zip_append_self, zip_self_map]
  rw [List.filterMap_eq_nil_iff]
  intro p hp
  obtain ⟨-, hlt, hx⟩ := List.mem_enumFrom hp
  simp only [Nat.sub_zero, List.getElem_map] at hx
  rw [hx]
  simp

/-- Zipping only inspects the common length. -/
theorem zip_take_min {α β : Type} :
    ∀ (l : List α) (l' : List β) (m : Nat), min l.length l'.length ≤ m →
      l.zip l' = (l.take m).zip (l'.take m)
  | [], l', m, _ => by simp
  | a :: l, [], m, _ => by simp
  | a :: l, b :: l', m, h => by
    have hm : 1 ≤ m := by
      simp only [List.length_cons] at h
      omega
    rcases Nat.exists_eq_add_of_le hm with ⟨k, rfl⟩
    simp only [List.take_succ_cons, List.zip_cons_cons, Nat.add_comm 1 k]
    rw [zip_take_min l l' k (by simp only [List.length_cons] at h; omega)]

end ConsentCore

namespace ConsentCore

/-- Appending a newline and more text to a document only appends lines:
the original line split is a prefix of the new one. -/
theorem splitlinesAux_append_isPrefix (b : List Char) :
    ∀ (n : Nat) (cs acc : List Char), cs.length ≤ n →
      (splitlinesAux acc cs) <+: (splitlinesAux acc (cs ++ '\n' :: b)) := by
  intro n
  induction n with
  | zero =>
    intro cs acc hlen
    have : cs = [] := List.length_eq_zero.1 (Nat.le_zero.1 hlen)
    subst this
    simp only [List.nil_append, splitlinesAux]
    exact ⟨if b.isEmpty then [] else splitlinesAux [] b, rfl⟩
  | succ n ih =>
    intro cs acc hlen
    rcases cs with _ | ⟨c0, rest⟩
    · simp only [List.nil_append, splitlinesAux]
      exact ⟨if b.isEmpty then [] else splitlinesAux [] b, rfl⟩
    · by_cases hc0n : c0 = '\n'
      · subst hc0n
        rw [List.cons_append, splitlinesAux, splitlinesAux]
        have hne : (rest ++ '\n' :: b).isEmpty = false := by
          cases rest <;> rfl
        rw [hne]
        rcases hrest : rest.isEmpty with _ | _
        · rw [List.cons_prefix_cons]
          refine ⟨rfl, ?_⟩
          have : rest.length ≤ n := by simp at hlen; omega
          exact ih rest [] this
        · have : rest = [] := by
            cases rest
            · rfl
            · simp at hrest
          subst this
          exact ⟨_, rfl⟩
      · by_cases hc0r : c0 = '\r'
        · subst hc0r
          rcases rest with _ | ⟨c1, rest1⟩
          · rw [splitlinesAux_r_nil]
            rw [List.cons_append, List.nil_append, splitlinesAux]
            rcases b with _ | _ <;> exact ⟨_, rfl⟩
          · by_cases hc1 : c1 = '\n'
            · subst hc1
              rw [List.cons_append, List.cons_append, splitlinesAux, splitlinesAux]
              have hne : (rest1 ++ '\n' :: b).isEmpty = false := by
                cases rest1 <;> rfl
              rw [hne]
              rcases hrest : rest1.isEmpty with _ | _
              · rw [List.cons_prefix_cons]
                refine ⟨rfl, ?_⟩
                have : rest1.length ≤ n := by simp at hlen; omega
                exact ih rest1 [] this
              · have : rest1 = [] := by
                  cases rest1
                  · rfl
                  · simp at hrest
                subst this
                exact ⟨_, rfl⟩
            · simp only [List.cons_append]
              rw [splitlinesAux_r_cons _ _ _ hc1, splitlinesAux_r_cons _ _ _ hc1]
              simp only [List.isEmpty_cons]
              rw [List.cons_prefix_cons]
              refine ⟨rfl, ?_⟩
              have : (c1 :: rest1).length ≤ n := by simp at hlen ⊢; omega
              exact ih (c1 :: rest1) [] this
        · rw [List.cons_append, splitlinesAux_other _ _ _ hc0n hc0r,
            splitlinesAux_other _ _ _ hc0n hc0r]
          have : rest.length ≤ n := by simp at hlen; omega
          exact ih rest (c0 :: acc) this

/-- Line-level corollary on strings. -/
theorem splitlinesPy_append_isPrefix (s t : String) :
    (splitlinesPy s) <+: (splitlinesPy (s ++ "\n" ++ t)) := by
  unfold splitlinesPy
  have hdata : (s ++ "\n" ++ t).data = s.data ++ '\n' :: t.data := by
    simp [String.data_append]
  rcases hs : s.data.isEmpty with _ | _
  · rw [if_neg (by simp [hdata, hs]), if_neg (by simp [hs])]
    rw [hdata]
    have hcs : s.data.length ≤ s.data.length := le_rfl
    rcases splitlinesAux_append_isPrefix t.data s.data.length s.data [] hcs with ⟨r, hr⟩
    exact ⟨r.map (fun l => ⟨l⟩), by rw [← hr, List.map_append]⟩
  · rw [if_pos (by simp at hs; simp [hs])]
    exact List.nil_prefix

end ConsentCore

namespace ConsentCore

/-- C9: the basic engine compares lines strictly by position up to the
shorter document: `find_line_changes` depends only on the common prefix of
the two line lists, and appending extra lines to a document produces no
changes at all. -/
theorem claim_C9_positional (old_lines new_lines : List String)
    (old_text extra_text : String) :
    find_line_changes old_lines new_lines =
      find_line_changes (old_lines.take (min old_lines.length new_lines.length))
        (new_lines.take (min old_lines.length new_lines.length)) ∧
    analyze_policy_change_basic old_text (old_text ++ "\n" ++ extra_text) = [] := by
  constructor
  · unfold find_line_changes
    rw [← zip_take_min old_lines new_lines _ le_rfl]
  · unfold analyze_policy_change_basic
    obtain ⟨t, ht⟩ := splitlinesPy_append_isPrefix old_text extra_text
    rw [← ht]
    simp only [find_line_changes_append, List.map_nil]
    rfl


end ConsentCore

namespace ConsentCore

/-- The enrichment loop never emits a change matching either silent-drop
rule: a modified "Other policy change" at similarity ≥ 0.95, or an added
"Other policy change" with fewer than 10 words of new text. -/
theorem enrichSemantic_no_dropped (a : Alignment) (c : Change)
    (h : enrichSemantic a = some c) :
    ¬ (c.ctype = "modified" ∧ c.category = "Other policy change" ∧
        simAtLeast c.similarity (95/100) = true) ∧
    ¬ (c.ctype = "added" ∧ c.category = "Other policy change" ∧
        (splitWs (c.new.getD "")).length < 10) := by
  simp only [enrichSemantic] at h
  split at h
  · exact absurd h (by simp)
  · split at h
    · exact absurd h (by simp)
    · split at h
      · exact absurd h (by simp)
      · split at h
        · rename_i hnu hnoise1 hnoise2 hmod
          split at h
          · exact absurd h (by simp)
          · rename_i hguard
            rw [Option.some.injEq] at h
            subst h
            simp only [not_and]
            constructor
            · intro h1 h2 h3
              exact hguard ⟨h2, h3⟩
            · intro h1
              rw [hmod] at h1
              exact absurd h1 (by decide)
        · split at h
          · rename_i hnu hnoise1 hnoise2 hmod hadd
            split at h
            · exact absurd h (by simp)
            · split at h
              · exact absurd h (by simp)
              · rename_i hheading hguard
                rw [Option.some.injEq] at h
                subst h
                simp only [not_and]
                constructor
                · intro h1
                  rw [hadd] at h1
                  exact absurd h1 (by decide)
                · intro h1 h2 h3
                  exact hguard ⟨h2, h3⟩
          · split at h
            · rename_i hnu hnoise1 hnoise2 hmod hadd hrem
              split at h
              · exact absurd h (by simp)
              · rw [Option.some.injEq] at h
                subst h
                simp only [not_and]
                constructor
                · intro h1
                  rw [hrem] at h1
                  exact absurd h1 (by decide)
                · intro h1
                  rw [hrem] at h1
                  exact absurd h1 (by decide)
            · exact absurd h (by simp)

end ConsentCore

namespace ConsentCore

/-- C10: the semantic engine silently drops modified "Other policy change"
changes whose alignment similarity is at least 0.95, and added "Other
policy change" changes whose new text has fewer than 10 words: no output
change ever has either combination. -/
theorem claim_C10_silent_drops (sim : Nat → Nat → ℚ) (old_text new_text : String) :
    ∀ c ∈ analyze_policy_change_semantic sim old_text new_text,
      ¬ (c.ctype = "modified" ∧ c.category = "Other policy change" ∧
          simAtLeast c.similarity (95/100) = true) ∧
      ¬ (c.ctype = "added" ∧ c.category = "Other policy change" ∧
          (splitWs (c.new.getD "")).length < 10) := by
  intro c hc
  have hc2 : c ∈ semanticEnriched sim old_text new_text := by
    have hsorted : c ∈ semanticSorted sim old_text new_text := by
      revert hc
      simp only [analyze_policy_change_semantic]
      split
      · intro hc; simp at hc
      · split
        · intro hc; simp at hc
        · intro hc
          exact (dedupe_and_trim_sublist _ 25 6).subset hc
    exact (mem_pySortDesc _).1 hsorted
  rcases List.mem_filterMap.1 hc2 with ⟨a, _, ha⟩
  exact enrichSemantic_no_dropped a c ha

/-- C10 witness: a concrete semantic run with nonempty output; its first
change matches neither silent-drop combination. -/
theorem claim_C10_silent_drops_witness :
    ((analyze_policy_change_semantic (fun _ j => if j = 0 then 1 else 1/10)
        "we collect your email address and keep it safe always"
        "we collect your email address and keep it safe always\nwe retain your data for twelve months after you close your account\nyou can opt out of marketing messages at any time").getD 0 default ∈
      analyze_policy_change_semantic (fun _ j => if j = 0 then 1 else 1/10)
        "we collect your email address and keep it safe always"
        "we collect your email address and keep it safe always\nwe retain your data for twelve months after you close your account\nyou can opt out of marketing messages at any time") ∧
    (¬ (((analyze_policy_change_semantic (fun _ j => if j = 0 then 1 else 1/10)
        "we collect your email address and keep it safe always"
        "we collect your email address and keep it safe always\nwe retain your data for twelve months after you close your account\nyou can opt out of marketing messages at any time").getD 0 default).ctype = "modified" ∧
      ((analyze_policy_change_semantic (fun _ j => if j = 0 then 1 else 1/10)
        "we collect your email address and keep it safe always"
        "we collect your email address and keep it safe always\nwe retain your data for twelve months after you close your account\nyou can opt out of marketing messages at any time").getD 0 default).category = "Other policy change" ∧
      simAtLeast ((analyze_policy_change_semantic (fun _ j => if j = 0 then 1 else 1/10)
        "we collect your email address and keep it safe always"
        "we collect your email address and keep it safe always\nwe retain your data for twelve months after you close your account\nyou can opt out of marketing messages at any time").getD 0 default).similarity (95/100) = true) ∧
    ¬ (((analyze_policy_change_semantic (fun _ j => if j = 0 then 1 else 1/10)
        "we collect your email address and keep it safe always"
        "we collect your email address and keep it safe always\nwe retain your data for twelve months after you close your account\nyou can opt out of marketing messages at any time").getD 0 default).ctype = "added" ∧
      ((analyze_policy_change_semantic (fun _ j => if j = 0 then 1 else 1/10)
        "we collect your email address and keep it safe always"
        "we collect your email address and keep it safe always\nwe retain your data for twelve months after you close your account\nyou can opt out of marketing messages at any time").getD 0 default).category = "Other policy change" ∧
      (splitWs (((analyze_policy_change_semantic (fun _ j => if j = 0 then 1 else 1/10)
        "we collect your email address and keep it safe always"
        "we collect your email address and keep it safe always\nwe retain your data for twelve months after you close your account\nyou can opt out of marketing messages at any time").getD 0 default).new.getD "")).length < 10)) :=
  ⟨by with_unfolding_all decide,
    claim_C10_silent_drops (fun _ j => if j = 0 then 1 else 1/10)
      "we collect your email address and keep it safe always"
      "we collect your email address and keep it safe always\nwe retain your data for twelve months after you close your account\nyou can opt out of marketing messages at any time"
      _ (by with_unfolding_all decide)⟩

end ConsentCore

namespace ConsentCore

/-- Stability of the decorated sort, phrased through `indexOf` when the
first components are distinct: fully tied keys keep the order of first
appearance. -/
theorem pySortDesc_pairwise_fst_indexOf {β : Type} (key : String × β → ℚ × String)
    (l : List (String × β)) (hnd : (l.map Prod.fst).Nodup) :
    List.Pairwise (fun x y => key x = key y →
        (l.map Prod.fst).indexOf x.1 ≤ (l.map Prod.fst).indexOf y.1)
      (pySortDesc key l) := by
  unfold pySortDesc
  apply (List.pairwise_map).2
  have hsorted := List.sorted_insertionSort (pyRel key) l.enum
  have hperm := List.perm_insertionSort (pyRel key) l.enum
  have hidx : ∀ p ∈ l.enum.insertionSort (pyRel key),
      (l.map Prod.fst).indexOf p.2.1 = p.1 := by
    intro p hp
    have hp2 : p ∈ l.enum := hperm.mem_iff.1 hp
    have hget := List.mem_enum_iff_getElem?.1 hp2
    rcases List.getElem?_eq_some_iff.1 hget with ⟨hlt, hgetl⟩
    have hb : p.1 < (l.map Prod.fst).length := by simpa using hlt
    have h1 : (l.map Prod.fst).get ⟨p.1, hb⟩ = p.2.1 := by
      rw [List.get_eq_getElem, List.getElem_map, hgetl]
    rw [← h1, List.get_eq_getElem]
    exact List.indexOf_getElem (by simpa using hnd) p.1 hb
  refine List.Pairwise.imp_of_mem ?_ hsorted
  intro p q hp hq hrel htie
  rw [hidx p hp, hidx q hq]
  rcases (pyRel_iff key p q).1 hrel with h1 | ⟨h1, h2 | ⟨h2, h3⟩⟩
  · rw [htie] at h1
    exact absurd h1 (lt_irrefl _)
  · rw [htie] at h2
    exact absurd h2 (lt_irrefl _)
  · exact h3

/-- The first-appearance theme list has no duplicates. -/
theorem themesInOrder_nodup (changes : List Change) :
    (ConsentApi.themesInOrder changes).Nodup := by
  unfold ConsentApi.themesInOrder
  generalize changes.map ConsentApi.theme_from_change = l
  suffices h : ∀ (l : List String) (acc : List String), acc.Nodup →
      (l.foldl (fun acc t => if t ∈ acc then acc else acc ++ [t]) acc).Nodup by
    exact h l [] List.nodup_nil
  intro l
  induction l with
  | nil => intro acc h; exact h
  | cons t l ih =>
    intro acc h
    simp only [List.foldl_cons]
    split
    · exact ih acc h
    · rename_i hmem
      refine ih _ ?_
      rw [List.nodup_append]
      exact ⟨h, List.nodup_singleton t, by simpa using hmem⟩

end ConsentCore

namespace ConsentCore

open ConsentApi

/-- C8 (amended): `summarise_changes_to_themes` (defaults 3/4) scores each
theme as max bucket risk + 0.15·min(10, bucket size), returns at most 3
themes in score-descending order with at most 4 items each in
risk-descending order drawn from the theme's bucket, is deterministic (a
pure function of the input list), and breaks score ties by the order in
which each theme first appears in the input — not by category name. -/
theorem claim_C8_theme_summary (changes : List Change) :
    (summarise_changes_to_themes changes 3 4).length ≤ 3 ∧
    List.Pairwise (fun b1 b2 : ThemeBucket => b2.score ≤ b1.score)
      (summarise_changes_to_themes changes 3 4) ∧
    (∀ b ∈ summarise_changes_to_themes changes 3 4,
      b.score = themeScore changes b.theme ∧
      b.count = (themeBucket changes b.theme).length ∧
      b.title = theme_title b.theme ∧
      b.items.length ≤ 4 ∧
      List.Pairwise (fun x y : Change => y.risk_score ≤ x.risk_score) b.items ∧
      List.Sublist b.items
        (pySortDesc (fun c => (c.risk_score, "")) (themeBucket changes b.theme))) ∧
    (∀ i j : Nat, i < j → j < (summarise_changes_to_themes changes 3 4).length →
      ((summarise_changes_to_themes changes 3 4).getD i default).score =
        ((summarise_changes_to_themes changes 3 4).getD j default).score →
      (themesInOrder changes).indexOf
          ((summarise_changes_to_themes changes 3 4).getD i default).theme ≤
        (themesInOrder changes).indexOf
          ((summarise_changes_to_themes changes 3 4).getD j default).theme) := by
  have hfst : ((themesInOrder changes).map (fun t =>
      (t, themeScore changes t, (themeBucket changes t).length))).map Prod.fst =
      themesInOrder changes := by
    rw [List.map_map]
    exact List.map_congr_left (fun x _ => rfl) |>.trans (List.map_id _)
  have hout : summarise_changes_to_themes changes 3 4 =
      ((pySortDesc (fun x : String × ℚ × Nat => (x.2.1, ""))
          ((themesInOrder changes).map (fun t =>
            (t, themeScore changes t, (themeBucket changes t).length)))).take 3).map
        (fun x => { theme := x.1, title := theme_title x.1, score := x.2.1, count := x.2.2,
                    items := (pySortDesc (fun c : Change => (c.risk_score, ""))
                      (themeBucket changes x.1)).take (max 1 4) }) := rfl
  rw [hout]
  refine ⟨?_, ?_, ?_, ?_⟩
  · rw [List.length_map]
    exact le_trans (List.length_take_le _ _) le_rfl
  · apply (List.pairwise_map).2
    apply List.Pairwise.sublist (List.take_sublist _ _)
    apply (pySortDesc_pairwise _ _).imp
    intro x y hxy
    rcases hxy with h1 | ⟨h1, _⟩
    · exact le_of_lt h1
    · exact le_of_eq h1.symm
  · intro b hb
    rcases List.mem_map.1 hb with ⟨x, hxtop, rfl⟩
    have hxsorted := List.take_subset _ _ hxtop
    have hxscored := (mem_pySortDesc _).1 hxsorted
    rcases List.mem_map.1 hxscored with ⟨t, _, rfl⟩
    refine ⟨rfl, rfl, rfl, ?_, ?_, ?_⟩
    · exact le_trans (List.length_take_le _ _) le_rfl
    · apply List.Pairwise.sublist (List.take_sublist _ _)
      apply (pySortDesc_pairwise _ _).imp
      intro x y hxy
      rcases hxy with h1 | ⟨h1, _⟩
      · exact le_of_lt h1
      · exact le_of_eq h1.symm
    · exact List.take_sublist _ _
  · intro i j hij hjlen htie
    have hnd2 : (((themesInOrder changes).map (fun t =>
        (t, themeScore changes t, (themeBucket changes t).length))).map Prod.fst).Nodup := by
      rw [hfst]
      exact themesInOrder_nodup changes
    have hst := pySortDesc_pairwise_fst_indexOf
      (fun x : String × ℚ × Nat => (x.2.1, ""))
      ((themesInOrder changes).map (fun t =>
        (t, themeScore changes t, (themeBucket changes t).length))) hnd2
    rw [hfst] at hst
    have hpw : List.Pairwise (fun b1 b2 : ThemeBucket =>
        b1.score = b2.score →
          (themesInOrder changes).indexOf b1.theme ≤
            (themesInOrder changes).indexOf b2.theme)
        (((pySortDesc (fun x : String × ℚ × Nat => (x.2.1, ""))
            ((themesInOrder changes).map (fun t =>
              (t, themeScore changes t, (themeBucket changes t).length)))).take 3).map
          (fun x => { theme := x.1, title := theme_title x.1, score := x.2.1, count := x.2.2,
                      items := (pySortDesc (fun c : Change => (c.risk_score, ""))
                        (themeBucket changes x.1)).take (max 1 4) })) := by
      apply (List.pairwise_map).2
      apply List.Pairwise.sublist (List.take_sublist _ _)
      apply hst.imp
      intro x y hxy hscore
      exact hxy (by rw [Prod.mk.injEq]; exact ⟨hscore, rfl⟩)
    have hjlen2 := hjlen
    rw [List.getD_eq_getElem _ _ (lt_trans hij hjlen2),
      List.getD_eq_getElem _ _ hjlen2] at htie ⊢
    exact List.pairwise_iff_getElem.1 hpw i j (lt_trans hij hjlen2) hjlen2 hij htie

end ConsentCore

namespace ConsentCore

open ConsentApi

/-- C8 counterexample: two changes in different themes ("rights" first,
"collection" first) with identical risk scores produce tied theme scores,
yet the summary order follows the input order of the two permutations
rather than any category-name order — so there is no secondary sort by
category name. -/
theorem claim_C8_counterexample :
    ((summarise_changes_to_themes
        [{ ctype := "added", category := "User rights & controls", risk_score := 2,
           theme := "rights" },
         { ctype := "added", category := "Data collection expanded", risk_score := 2,
           theme := "collection" }] 3 4).map (fun b => b.theme) =
      ["rights", "collection"]) ∧
    ((summarise_changes_to_themes
        [{ ctype := "added", category := "Data collection expanded", risk_score := 2,
           theme := "collection" },
         { ctype := "added", category := "User rights & controls", risk_score := 2,
           theme := "rights" }] 3 4).map (fun b => b.theme) =
      ["collection", "rights"]) ∧
    ((summarise_changes_to_themes
        [{ ctype := "added", category := "User rights & controls", risk_score := 2,
           theme := "rights" },
         { ctype := "added", category := "Data collection expanded", risk_score := 2,
           theme := "collection" }] 3 4).getD 0 default).score =
      ((summarise_changes_to_themes
        [{ ctype := "added", category := "User rights & controls", risk_score := 2,
           theme := "rights" },
         { ctype := "added", category := "Data collection expanded", risk_score := 2,
           theme := "collection" }] 3 4).getD 1 default).score := by
  refine ⟨?_, ?_, ?_⟩ <;> with_unfolding_all decide

end ConsentCore
